import Mathlib

/-!
# gaws: provisioning one EC2 instance behind a security group

A shallow embedding of `aws.go` and `main.go`.

* Go strings are Lean strings; `len` and `[]byte` go through the UTF-8 bytes.
* The EC2 client is a `Provider`: one state-passing function per API operation.
  Every call made through the client is appended to the `trace` of the `World`,
  together with the error it returned, so that "no request was issued" and
  "aborts at that call" are statements about the trace.
* `check` panics and nothing recovers, `log.Fatal` exits, and the Go runtime
  panics on a nil dereference or an index out of range: all three end the
  process and are the `Abort` outcomes. The world is returned next to the
  outcome, so the trace up to the abort stays observable.
* The SDK's `*string` fields are modelled by their pointees; a `*ec2.Instance`
  that the program itself can make nil is an `Option`.
* The polling loop of `run` has no bound in the source; here it carries fuel and
  returns `none` when the fuel runs out before the loop ends.
* Log output is not part of the model, apart from the record that `run` reports.
-/

set_option linter.unusedVariables false
set_option maxRecDepth 100000

namespace Gaws

/-! ## Go runtime and standard library -/

/-- Ways in which the process ends abnormally. -/
inductive Abort where
  /-- `panic(e.Error())` raised by `check`; nothing in the program recovers. -/
  | panic (text : String)
  /-- `log.Fatal(text)`: the process exits with status 1. -/
  | fatal (text : String)
  /-- Go runtime panic: invalid memory address or nil pointer dereference. -/
  | nilDereference
  /-- Go runtime panic: index out of range. -/
  | indexOutOfRange
  deriving DecidableEq, Repr

/-- The bytes of a Go string (`[]byte(s)` as a sequence). -/
def utf8Bytes (s : String) : List UInt8 :=
  s.data.flatMap String.utf8EncodeChar

/-- Go's builtin `len` on a string: the number of bytes. -/
def len (s : String) : Nat :=
  (utf8Bytes s).length

/-- The conversion `[]byte(s)` as a possibly-nil slice (`none` is the nil slice).
The conversion allocates, so its result is never nil, also for the empty string. -/
def toByteSlice (s : String) : Option (List UInt8) :=
  some (utf8Bytes s)

/-- The verb `%d` applied to an `int`: signed decimal. -/
def fmtInt (i : Int) : String :=
  toString i

/-- Substitution of rendered operands into a format, character by character:
a `%` followed by a verb consumes the next operand; when no operand is left
Go prints `%!verb(MISSING)`. -/
def sprintfAux : List Char → List String → List Char
  | '%' :: _ :: rest, a :: args => a.data ++ sprintfAux rest args
  | '%' :: v :: rest, [] => '%' :: '!' :: v :: ("(MISSING)".data ++ sprintfAux rest [])
  | c :: rest, args => c :: sprintfAux rest args
  | [], _ => []

/-- Model of `fmt.Sprintf(format, operands...)`. Each operand is passed already
rendered for its verb: `fmtInt i` for `%d`, the string itself for `%s`, the
quoted string for `%q`. -/
def Sprintf (format : String) (operands : List String) : String :=
  ⟨sprintfAux format.data operands⟩

/-- The alphabet of `base64.StdEncoding`. -/
def encodeStd : List Char :=
  "ABCDEFGHIJKLMNOPQRSTUVWXYZabcdefghijklmnopqrstuvwxyz0123456789+/".data

/-- The character for a 6-bit value. -/
def encodeStdChar (v : Nat) : Char :=
  encodeStd.getD v 'A'

/-- The characters of the standard base64 encoding: 3 bytes give 4 characters,
a last group of 1 or 2 bytes is padded with `=`. -/
def encodeChars : List UInt8 → List Char
  | a :: b :: c :: rest =>
      encodeStdChar (a.toNat / 4) ::
      encodeStdChar ((a.toNat % 4) * 16 + b.toNat / 16) ::
      encodeStdChar ((b.toNat % 16) * 4 + c.toNat / 64) ::
      encodeStdChar (c.toNat % 64) :: encodeChars rest
  | [a, b] =>
      [encodeStdChar (a.toNat / 4), encodeStdChar ((a.toNat % 4) * 16 + b.toNat / 16),
       encodeStdChar ((b.toNat % 16) * 4), '=']
  | [a] => [encodeStdChar (a.toNat / 4), encodeStdChar ((a.toNat % 4) * 16), '=', '=']
  | [] => []

/-- Model of `base64.StdEncoding.EncodeToString`. -/
def EncodeToString (src : List UInt8) : String :=
  ⟨encodeChars src⟩

/-! ## EC2 data -/

/-- The type `ec2.Tag`. -/
structure Tag where
  Key : String
  Value : String
  deriving DecidableEq, Repr

/-- The fields of `ec2.Instance` the program reads, with `State.Name` and `Tags`. -/
structure Instance where
  InstanceId : String
  StateName : String
  Tags : List Tag
  PublicDnsName : String
  PublicIpAddress : String
  deriving DecidableEq, Repr

/-- The type `ec2.Reservation`. -/
structure Reservation where
  Instances : List Instance
  deriving DecidableEq, Repr

/-- The type `ec2.SecurityGroup`. -/
structure SecurityGroup where
  GroupId : String
  GroupName : String
  Description : String
  VpcId : String
  deriving DecidableEq, Repr

/-- The type `ec2.Vpc`. -/
structure Vpc where
  VpcId : String
  deriving DecidableEq, Repr

/-- The type `ec2.Filter`. -/
structure Filter where
  Name : String
  Values : List String
  deriving DecidableEq, Repr

/-- The type `ec2.IpRange`. -/
structure IpRange where
  CidrIp : String
  deriving DecidableEq, Repr

/-- The type `ec2.IpPermission`. -/
structure IpPermission where
  IpProtocol : String
  FromPort : Int
  ToPort : Int
  IpRanges : List IpRange
  deriving DecidableEq, Repr

/-- The type `ec2.TagSpecification`. -/
structure TagSpecification where
  ResourceType : String
  Tags : List Tag
  deriving DecidableEq, Repr

/-- The type `ec2.RunInstancesInput`; `UserData` is `none` when the field is unset. -/
structure RunInstancesInput where
  ImageId : String
  InstanceType : String
  MinCount : Int
  MaxCount : Int
  SecurityGroupIds : List String
  TagSpecifications : List TagSpecification
  UserData : Option String
  deriving DecidableEq, Repr

/-- The type `ec2.CreateSecurityGroupInput`. -/
structure CreateSecurityGroupInput where
  GroupName : String
  Description : String
  VpcId : String
  deriving DecidableEq, Repr

/-- The type `ec2.AuthorizeSecurityGroupIngressInput`. -/
structure AuthorizeSecurityGroupIngressInput where
  GroupName : String
  IpPermissions : List IpPermission
  deriving DecidableEq, Repr

/-- The type `ec2.DescribeSecurityGroupsInput`. -/
structure DescribeSecurityGroupsInput where
  Filters : List Filter
  deriving DecidableEq, Repr

/-- The type `ec2.DescribeInstancesInput`. -/
structure DescribeInstancesInput where
  Filters : List Filter
  deriving DecidableEq, Repr

/-- An error returned by the client. `Code` is `some c` when the error is an
`awserr.Error` with code `c`; `Error` is the text of `err.Error()`. -/
structure ProviderError where
  Code : Option String
  Error : String
  deriving DecidableEq, Repr

/-- A request sent to the provider. -/
inductive Request where
  | DescribeVpcs
  | CreateSecurityGroup (input : CreateSecurityGroupInput)
  | AuthorizeSecurityGroupIngress (input : AuthorizeSecurityGroupIngressInput)
  | DescribeSecurityGroups (input : DescribeSecurityGroupsInput)
  | RunInstances (input : RunInstancesInput)
  | DescribeInstances (input : DescribeInstancesInput)
  deriving DecidableEq, Repr

/-- What the process does to the outside: a provider call, with the error it
returned if any, or a `time.Sleep` of so many milliseconds. -/
inductive Event where
  | call (request : Request) (err : Option ProviderError)
  | sleep (ms : Nat)
  deriving DecidableEq, Repr

/-- The EC2 API as the program uses it, over a provider state `σ`. -/
structure Provider (σ : Type) where
  DescribeVpcs : σ → Except ProviderError (List Vpc) × σ
  CreateSecurityGroup : CreateSecurityGroupInput → σ → Except ProviderError String × σ
  AuthorizeSecurityGroupIngress :
    AuthorizeSecurityGroupIngressInput → σ → Except ProviderError Unit × σ
  DescribeSecurityGroups :
    DescribeSecurityGroupsInput → σ → Except ProviderError (List SecurityGroup) × σ
  RunInstances : RunInstancesInput → σ → Except ProviderError (List Instance) × σ
  DescribeInstances : DescribeInstancesInput → σ → Except ProviderError (List Reservation) × σ

/-- The provider state and what the process has done so far. -/
structure World (σ : Type) where
  cloud : σ
  trace : List Event

/-- The error of a response, if it is one. -/
def errorOf {α : Type} : Except ProviderError α → Option ProviderError
  | .error e => some e
  | .ok _ => none

/-- One call through the client: run the operation on the provider state and
record the request in the trace. -/
def invoke {σ α : Type} (op : σ → Except ProviderError α × σ) (request : Request)
    (w : World σ) : Except ProviderError α × World σ :=
  ((op w.cloud).1, ⟨(op w.cloud).2, w.trace ++ [Event.call request (errorOf (op w.cloud).1)]⟩)

/-- The call `time.Sleep(ms * time.Millisecond)`. -/
def sleep {σ : Type} (ms : Nat) (w : World σ) : World σ :=
  ⟨w.cloud, w.trace ++ [Event.sleep ms]⟩

/-! ## main.go -/

/-- The struct `awsInput`, as `argParse` fills it (the client is the `Provider`). -/
structure awsInput where
  AWSRegion : String
  AWSAccessKey : String
  AWSSecretAccessKey : String
  container : String
  amiID : String
  instanceType : String
  instanceTagKey : String
  instanceTagValue : String
  securityGroupName : String
  securityGroupDesc : String
  vpcID : String
  port : Int
  cidr : String
  deriving DecidableEq, Repr

/-- The error handler `check(e, msg)`: panics with `e.Error()` when `e` is not
nil (`some text`), and does nothing otherwise. -/
def check (e : Option String) (msg : String) : Option Abort :=
  match e with
  | some text => some (Abort.panic text)
  | none => none

/-- The format of the boot script in `getUserData`. -/
def userDataFormat : String :=
  "#!/bin/bash\nyum update -y\nyum install -y docker\nservice docker start\nchkconfig docker on\nusermod -a -G docker ec2-user\ndocker run -it -d -p %d:%d --rm %s"

/-- Simple bash script to run on boot. -/
def getUserData (container : String) (port : Int) : String :=
  Sprintf userDataFormat [fmtInt port, fmtInt port, container]

/-! ## aws.go -/

/-- Max size for user data. -/
def MaxUserDataSize : Nat := 16384

/-- The request `createEC2` builds (its lines 26 to 64): image, type, counts,
security groups, the tag specification, and the user data. -/
def createEC2Request (amiID instanceType instanceTagKey instanceTagValue userdata : String)
    (securityGroupIDs : List String) : Except Abort RunInstancesInput :=
  let request : RunInstancesInput :=
    { ImageId := amiID, InstanceType := instanceType, MinCount := 1, MaxCount := 1,
      SecurityGroupIds := securityGroupIDs,
      TagSpecifications :=
        [{ ResourceType := "instance", Tags := [{ Key := instanceTagKey, Value := instanceTagValue }] }],
      UserData := none }
  match toByteSlice userdata with
  | none => .ok request
  | some d =>
    if d.length > MaxUserDataSize then
      .error (Abort.panic (Sprintf "Instance UserData was too large (%d bytes)" [fmtInt d.length]))
    else
      .ok { request with UserData := some (EncodeToString d) }

/-- Launch one instance: build the request, run it, and return the instances of
the reservation. The log line after the call reads `runResult.Instances[0]`. -/
def createEC2 {σ : Type} (P : Provider σ)
    (amiID instanceType instanceTagKey instanceTagValue userdata : String)
    (securityGroupIDs : List String) (w : World σ) : Except Abort (List Instance) × World σ :=
  match createEC2Request amiID instanceType instanceTagKey instanceTagValue userdata
      securityGroupIDs with
  | .error a => (.error a, w)
  | .ok request =>
    match invoke (P.RunInstances request) (Request.RunInstances request) w with
    | (.error err, w1) => (.error (Abort.panic err.Error), w1)
    | (.ok runResult, w1) =>
      match runResult with
      | [] => (.error Abort.indexOutOfRange, w1)
      | _ :: _ => (.ok runResult, w1)

/-- Return the security groups for the given names, by filter. -/
def getGroups {σ : Type} (P : Provider σ) (names : List String) (filter : String)
    (w : World σ) : Except ProviderError (List SecurityGroup) × World σ :=
  let values := names.map (fun name => name)
  let params : DescribeSecurityGroupsInput := { Filters := [{ Name := filter, Values := values }] }
  invoke (P.DescribeSecurityGroups params) (Request.DescribeSecurityGroups params) w

/-- The VPC the group goes into (lines 86 to 99 of `createSecurityGroup`): the
one given, or the first one of the account. -/
def resolveVpc {σ : Type} (P : Provider σ) (vpcID : String) (w : World σ) :
    Except Abort String × World σ :=
  if len vpcID = 0 then
    match invoke P.DescribeVpcs Request.DescribeVpcs w with
    | (.error err, w1) => (.error (Abort.panic err.Error), w1)
    | (.ok vpcs, w1) =>
      match vpcs with
      | [] => (.error (Abort.panic "No VPCs found to associate security group with."), w1)
      | v :: _ => (.ok v.VpcId, w1)
  else (.ok vpcID, w)

/-- The ingress request of `createSecurityGroup`: tcp, one port, one range. -/
def ingressInput (name : String) (port : Int) (cidr : String) :
    AuthorizeSecurityGroupIngressInput :=
  { GroupName := name,
    IpPermissions :=
      [{ IpProtocol := "tcp", FromPort := port, ToPort := port, IpRanges := [{ CidrIp := cidr }] }] }

/-- Create the security group and open the port, or reuse the group of that
name when it exists already. `Quote` is `strconv.Quote`, the rendering of `%q`. -/
def createSecurityGroup {σ : Type} (P : Provider σ) (Quote : String → String)
    (name desc vpcID : String) (port : Int) (cidr : String) (w : World σ) :
    Except Abort (List SecurityGroup) × World σ :=
  if len name = 0 ∨ len desc = 0 then
    (.error (Abort.panic "Group name and description required. "), w)
  else
    match resolveVpc P vpcID w with
    | (.error a, w1) => (.error a, w1)
    | (.ok vpcID, w1) =>
      let input : CreateSecurityGroupInput :=
        { GroupName := name, Description := desc, VpcId := vpcID }
      match invoke (P.CreateSecurityGroup input) (Request.CreateSecurityGroup input) w1 with
      | (.error err, w2) =>
        if err.Code = some "InvalidVpcID.NotFound" then
          (.error (Abort.panic (Sprintf "Unable to find VPC with ID %q." [Quote vpcID])), w2)
        else if err.Code = some "InvalidGroup.Duplicate" then
          -- result, _ := getGroups(...); return result, nil
          match getGroups P ([] ++ [name]) "group-name" w2 with
          | (.error _, w3) => (.ok [], w3)
          | (.ok result, w3) => (.ok result, w3)
        else
          (.error (Abort.panic (Sprintf "Unable to create security group %q, %v" [Quote name])), w2)
      | (.ok _, w2) =>
        match invoke (P.AuthorizeSecurityGroupIngress (ingressInput name port cidr))
            (Request.AuthorizeSecurityGroupIngress (ingressInput name port cidr)) w2 with
        | (.error _, w3) =>
          (.error (Abort.panic (Sprintf "Unable to set security group %q ingress, %v" [Quote name])), w3)
        | (.ok _, w3) =>
          match getGroups P ([] ++ [name]) "group-name" w3 with
          | (.error err, w4) =>
            match check (some err.Error) ("Unable to find group: " ++ name) with
            | some a => (.error a, w4)
            | none => (.ok [], w4)
          | (.ok result, w4) => (.ok result, w4)

/-- The parameters of the `DescribeInstances` call of `getEC2`. -/
def describeParams (tagKey tagValue : String) : DescribeInstancesInput :=
  { Filters :=
      [{ Name := "tag:" ++ tagKey, Values := [tagValue] },
       { Name := "instance-state-name", Values := ["running", "pending"] }] }

/-- The two loops of `getEC2` that collect the instance objects. -/
def collectInstances (reservations : List Reservation) : List Instance :=
  reservations.foldl
    (fun instances res => res.Instances.foldl (fun instances inst => instances ++ [inst]) instances)
    []

/-- Get all the instances that are running or pending and have the tag. -/
def getEC2 {σ : Type} (P : Provider σ) (tagKey tagValue : String) (w : World σ) :
    Except Abort (List Instance) × World σ :=
  let params := describeParams tagKey tagValue
  match invoke (P.DescribeInstances params) (Request.DescribeInstances params) w with
  | (.error err, w1) => (.error (Abort.fatal err.Error), w1)
  | (.ok resp, w1) => (.ok (collectInstances resp), w1)

/-- Util function to get an instance from an array of instances: the pair
`(instance, err)` is `(some i, none)` or `(none, some text)`. -/
def getEC2Instance : List Instance → String → Option Instance × Option String
  | [], id => (none, some (Sprintf "Instance: %s not found." [id]))
  | i :: instances, id =>
    if i.InstanceId = id then (some i, none) else getEC2Instance instances id

/-! ## run -/

/-- What follows the polling loop of `run`: `check(err, "Could not find instance")`
and the report, which reads the fields of `instance`. -/
def report {σ : Type} (inst : Option Instance) (err : Option String) (w : World σ) :
    Option (Except Abort Instance) × World σ :=
  match check err "Could not find instance" with
  | some a => (some (.error a), w)
  | none =>
    match inst with
    | none => (some (.error Abort.nilDereference), w)
    | some i => (some (.ok i), w)

/-- The loop `for *instance.PublicDnsName == ""` of `run`, with `fuel` iterations
at most; `none` when the fuel is used up. -/
def pollLoop {σ : Type} (P : Provider σ) (tagKey tagValue createdInstanceID : String) :
    Nat → Option Instance → Option String → World σ → Option (Except Abort Instance) × World σ
  | _, none, _, w => (some (.error Abort.nilDereference), w)
  | 0, some inst, err, w =>
    if inst.PublicDnsName = "" then (none, w) else report (some inst) err w
  | fuel + 1, some inst, err, w =>
    if inst.PublicDnsName = "" then
      match getEC2 P tagKey tagValue (sleep 500 w) with
      | (.error a, w1) => (some (.error a), w1)
      | (.ok ec2s, w1) =>
        pollLoop P tagKey tagValue createdInstanceID fuel
          (getEC2Instance ec2s createdInstanceID).1 (getEC2Instance ec2s createdInstanceID).2 w1
    else report (some inst) err w

/-- Lines 159 to 173 of `run`: find the created instance and wait until it has
a public DNS name. -/
def awaitPublicDns {σ : Type} (P : Provider σ) (fuel : Nat)
    (tagKey tagValue createdInstanceID : String) (w : World σ) :
    Option (Except Abort Instance) × World σ :=
  match getEC2 P tagKey tagValue w with
  | (.error a, w1) => (some (.error a), w1)
  | (.ok ec2s, w1) =>
    pollLoop P tagKey tagValue createdInstanceID fuel
      (getEC2Instance ec2s createdInstanceID).1 (getEC2Instance ec2s createdInstanceID).2 w1

/-- The function `run`, after `argParse` and `createClient`: security group,
instance, then the wait. The result is the instance whose address is reported. -/
def run {σ : Type} (P : Provider σ) (Quote : String → String) (fuel : Nat) (aws : awsInput)
    (w : World σ) : Option (Except Abort Instance) × World σ :=
  match createSecurityGroup P Quote aws.securityGroupName aws.securityGroupDesc aws.vpcID
      aws.port aws.cidr w with
  | (.error a, w1) => (some (.error a), w1)
  | (.ok groups, w1) =>
    let securityGroupIDs := groups.foldl (fun ids group => ids ++ [group.GroupId]) []
    let userdata := getUserData aws.container aws.port
    match createEC2 P aws.amiID aws.instanceType aws.instanceTagKey aws.instanceTagValue
        userdata securityGroupIDs w1 with
    | (.error a, w2) => (some (.error a), w2)
    | (.ok instances, w2) =>
      match instances with
      | [] => (some (.error Abort.indexOutOfRange), w2)
      | first :: _ =>
        awaitPublicDns P fuel aws.instanceTagKey aws.instanceTagValue first.InstanceId w2

/-! ## Providers -/

/-- A provider that answers from a script: one queue of responses per operation,
each call takes the next one. -/
structure Script where
  describeVpcs : List (Except ProviderError (List Vpc))
  createSecurityGroup : List (Except ProviderError String)
  authorizeIngress : List (Except ProviderError Unit)
  describeSecurityGroups : List (Except ProviderError (List SecurityGroup))
  runInstances : List (Except ProviderError (List Instance))
  describeInstances : List (Except ProviderError (List Reservation))

/-- The answer of the scripted provider when a queue is empty. -/
def endOfScript : ProviderError :=
  { Code := none, Error := "RequestError: send request failed" }

/-- The next response of a queue and the rest of the queue. -/
def nextResponse {α : Type} :
    List (Except ProviderError α) → Except ProviderError α × List (Except ProviderError α)
  | [] => (.error endOfScript, [])
  | r :: rest => (r, rest)

/-- The scripted provider. -/
def scripted : Provider Script where
  DescribeVpcs s :=
    ((nextResponse s.describeVpcs).1, { s with describeVpcs := (nextResponse s.describeVpcs).2 })
  CreateSecurityGroup _ s :=
    ((nextResponse s.createSecurityGroup).1,
      { s with createSecurityGroup := (nextResponse s.createSecurityGroup).2 })
  AuthorizeSecurityGroupIngress _ s :=
    ((nextResponse s.authorizeIngress).1,
      { s with authorizeIngress := (nextResponse s.authorizeIngress).2 })
  DescribeSecurityGroups _ s :=
    ((nextResponse s.describeSecurityGroups).1,
      { s with describeSecurityGroups := (nextResponse s.describeSecurityGroups).2 })
  RunInstances _ s :=
    ((nextResponse s.runInstances).1, { s with runInstances := (nextResponse s.runInstances).2 })
  DescribeInstances _ s :=
    ((nextResponse s.describeInstances).1,
      { s with describeInstances := (nextResponse s.describeInstances).2 })

/-- A provider with backing data: the networks, the security groups created so
far, the ingress rules authorised so far, the reservations, and a counter for
fresh identifiers. -/
structure Cloud where
  vpcs : List Vpc
  groups : List SecurityGroup
  ingress : List AuthorizeSecurityGroupIngressInput
  reservations : List Reservation
  serial : Nat
  deriving DecidableEq, Repr

/-- Whether an instance passes one filter of `DescribeInstances`: the state
filter lists the admitted state names, a `tag:key` filter the admitted values of
that tag. A filter of any other name admits nothing. -/
def instancePasses (i : Instance) (f : Filter) : Bool :=
  if f.Name = "instance-state-name" then decide (i.StateName ∈ f.Values)
  else i.Tags.any (fun t => decide ("tag:" ++ t.Key = f.Name) && decide (t.Value ∈ f.Values))

/-- The instances of a reservation that pass every filter. -/
def selectInstances (filters : List Filter) (r : Reservation) : Reservation :=
  { Instances := r.Instances.filter (fun i => filters.all (instancePasses i)) }

/-- Whether a group passes one filter of `DescribeSecurityGroups`. -/
def groupPasses (g : SecurityGroup) (f : Filter) : Bool :=
  if f.Name = "group-name" then decide (g.GroupName ∈ f.Values)
  else if f.Name = "group-id" then decide (g.GroupId ∈ f.Values)
  else if f.Name = "vpc-id" then decide (g.VpcId ∈ f.Values)
  else false

/-- The provider over backing data. Created groups persist, creating a group
whose name exists already fails with `InvalidGroup.Duplicate`, and the describe
operations apply every filter of the request. -/
def cloud : Provider Cloud where
  DescribeVpcs s := (.ok s.vpcs, s)
  CreateSecurityGroup input s :=
    if s.vpcs.all (fun v => decide (v.VpcId ≠ input.VpcId)) then
      (.error { Code := some "InvalidVpcID.NotFound", Error := "InvalidVpcID.NotFound" }, s)
    else if s.groups.any (fun g => decide (g.GroupName = input.GroupName)) then
      (.error { Code := some "InvalidGroup.Duplicate", Error := "InvalidGroup.Duplicate" }, s)
    else
      (.ok ("sg-" ++ toString s.serial),
        { s with
          groups := s.groups ++
            [{ GroupId := "sg-" ++ toString s.serial, GroupName := input.GroupName,
               Description := input.Description, VpcId := input.VpcId }],
          serial := s.serial + 1 })
  AuthorizeSecurityGroupIngress input s :=
    if s.groups.any (fun g => decide (g.GroupName = input.GroupName)) then
      (.ok (), { s with ingress := s.ingress ++ [input] })
    else
      (.error { Code := some "InvalidGroup.NotFound", Error := "InvalidGroup.NotFound" }, s)
  DescribeSecurityGroups input s :=
    (.ok (s.groups.filter (fun g => input.Filters.all (groupPasses g))), s)
  RunInstances input s :=
    let created : Instance :=
      { InstanceId := "i-" ++ toString s.serial, StateName := "pending",
        Tags := input.TagSpecifications.flatMap (fun spec => spec.Tags),
        PublicDnsName := "", PublicIpAddress := "" }
    (.ok [created],
      { s with reservations := s.reservations ++ [{ Instances := [created] }],
               serial := s.serial + 1 })
  DescribeInstances input s :=
    (.ok ((s.reservations.map (selectInstances input.Filters)).filter
        (fun r => decide (r.Instances ≠ []))), s)

/-! ## Vocabulary of the statements -/

/-- The successive `DescribeInstances` calls with `params`, made from provider
state `s`, succeed with the responses `rs`, one after the other, and leave the
provider in state `t`. -/
def Responses {σ : Type} (P : Provider σ) (params : DescribeInstancesInput) :
    σ → List (List Reservation) → σ → Prop
  | s, [], t => s = t
  | s, r :: rs, t =>
    (P.DescribeInstances params s).1 = .ok r ∧
      Responses P params (P.DescribeInstances params s).2 rs t

/-- The trace entry of a successful `DescribeInstances` call of `getEC2`. -/
def describeCall (tagKey tagValue : String) : Event :=
  Event.call (Request.DescribeInstances (describeParams tagKey tagValue)) none

/-- The trace of `n` iterations of the polling loop: a sleep of 500 ms and a
`DescribeInstances` call, `n` times. -/
def pollEvents (tagKey tagValue : String) (n : Nat) : List Event :=
  (List.replicate n [Event.sleep 500, describeCall tagKey tagValue]).flatten

/-- Whether a trace entry is an `AuthorizeSecurityGroupIngress` call. -/
def Event.isAuthorize : Event → Bool
  | Event.call (Request.AuthorizeSecurityGroupIngress _) _ => true
  | _ => false

/-- Whether a trace entry is a `RunInstances` call. -/
def Event.isRunInstances : Event → Bool
  | Event.call (Request.RunInstances _) _ => true
  | _ => false

/-- Whether a trace entry is a `DescribeInstances` call. -/
def Event.isDescribeInstances : Event → Bool
  | Event.call (Request.DescribeInstances _) _ => true
  | _ => false

/-- Whether a trace entry is a sleep. -/
def Event.isSleep : Event → Bool
  | Event.sleep _ => true
  | _ => false

/-- Whether a trace entry is a call that failed. -/
def Event.failed : Event → Bool
  | Event.call _ (some _) => true
  | _ => false

/-- The name of the operation of a request. -/
def Request.operation : Request → String
  | Request.DescribeVpcs => "DescribeVpcs"
  | Request.CreateSecurityGroup _ => "CreateSecurityGroup"
  | Request.AuthorizeSecurityGroupIngress _ => "AuthorizeSecurityGroupIngress"
  | Request.DescribeSecurityGroups _ => "DescribeSecurityGroups"
  | Request.RunInstances _ => "RunInstances"
  | Request.DescribeInstances _ => "DescribeInstances"

/-- The outline of a trace entry: the operation and whether it failed, or the sleep. -/
def Event.outline : Event → String × Bool
  | Event.call request err => (request.operation, err.isSome)
  | Event.sleep _ => ("Sleep", false)

/-- The fixed lines of the boot script, before the `docker run` line. -/
def scriptPreamble : String :=
  "#!/bin/bash\nyum update -y\nyum install -y docker\nservice docker start\nchkconfig docker on\nusermod -a -G docker ec2-user\n"

/-- The request of a launch whose payload is within the limit: one instance of
the image and type, in the security groups, tagged at creation, with the payload
in standard base64 as user data. -/
def launchRequest (amiID instanceType instanceTagKey instanceTagValue userdata : String)
    (securityGroupIDs : List String) : RunInstancesInput :=
  { ImageId := amiID, InstanceType := instanceType, MinCount := 1, MaxCount := 1,
    SecurityGroupIds := securityGroupIDs,
    TagSpecifications :=
      [{ ResourceType := "instance", Tags := [{ Key := instanceTagKey, Value := instanceTagValue }] }],
    UserData := some (EncodeToString (utf8Bytes userdata)) }

/-- A payload of 16385 bytes. -/
def oversizedPayload : String :=
  ⟨List.replicate 16385 'a'⟩

/-- A scripted provider whose only response is a successful run-instance call
with the given instances. -/
def launchScript (instances : List Instance) : Script :=
  { describeVpcs := [], createSecurityGroup := [], authorizeIngress := [],
    describeSecurityGroups := [], runInstances := [.ok instances], describeInstances := [] }

/-- An instance record as the provider returns it right after the launch. -/
def pendingInstance (id : String) : Instance :=
  { InstanceId := id, StateName := "pending", Tags := [{ Key := "Name", Value := "x" }],
    PublicDnsName := "", PublicIpAddress := "" }

/-- An instance record with a tag `Name`, a state, and no address. -/
def taggedInstance (id state name : String) : Instance :=
  { InstanceId := id, StateName := state, Tags := [{ Key := "Name", Value := name }],
    PublicDnsName := "", PublicIpAddress := "" }

/-- Backing data with a mixture of states and tags, in two reservations. -/
def mixedBacking : Cloud :=
  { vpcs := [{ VpcId := "vpc-1" }], groups := [], ingress := [],
    reservations :=
      [{ Instances := [taggedInstance "i-1" "running" "gaws", taggedInstance "i-2" "terminated" "gaws",
                       taggedInstance "i-3" "running" "other"] },
       { Instances := [taggedInstance "i-4" "stopped" "gaws", taggedInstance "i-5" "pending" "gaws"] }],
    serial := 6 }

/-- A scripted provider that answers the describe-instances calls with the
given responses, in order. -/
def describeScript (responses : List (List Reservation)) : Script :=
  { describeVpcs := [], createSecurityGroup := [], authorizeIngress := [],
    describeSecurityGroups := [], runInstances := [],
    describeInstances := responses.map (fun r => .ok r) }

/-- An instance record with a public DNS name and address. -/
def reachableInstance (id : String) : Instance :=
  { InstanceId := id, StateName := "running", Tags := [{ Key := "Name", Value := "gaws" }],
    PublicDnsName := "ec2-1-2-3-4.compute-1.amazonaws.com", PublicIpAddress := "1.2.3.4" }

/-- The input of `run` with the default flags of `argParse`. -/
def defaultInput : awsInput :=
  { AWSRegion := "us-east-1", AWSAccessKey := "key", AWSSecretAccessKey := "secret",
    container := "stevemcquaid/python-flask-docker-hello-world:latest",
    amiID := "ami-97785bed", instanceType := "t2.micro", instanceTagKey := "Name",
    instanceTagValue := "gaws", securityGroupName := "gaws-SG",
    securityGroupDesc := "Allow access to my docker container", vpcID := "", port := 80,
    cidr := "1.2.3.4/32" }

/-- The group the scripted provider describes. -/
def scriptedGroup : SecurityGroup :=
  { GroupId := "sg-1", GroupName := "gaws-SG",
    Description := "Allow access to my docker container", VpcId := "vpc-1" }

/-- A script of a run in which the group is created and the instance launched,
with the given describe-instances responses after the launch. -/
def freshRunScript (responses : List (List Reservation)) : Script :=
  { describeVpcs := [.ok [{ VpcId := "vpc-1" }]], createSecurityGroup := [.ok "sg-1"],
    authorizeIngress := [.ok ()], describeSecurityGroups := [.ok [scriptedGroup]],
    runInstances := [.ok [taggedInstance "i-1" "pending" "gaws"]],
    describeInstances := responses.map (fun r => .ok r) }

/-- A script of a run in which the group exists already and the lookup of the
group by name fails with a request error. -/
def failedLookupScript : Script :=
  { describeVpcs := [.ok [{ VpcId := "vpc-1" }]],
    createSecurityGroup :=
      [.error { Code := some "InvalidGroup.Duplicate", Error := "InvalidGroup.Duplicate: exists" }],
    authorizeIngress := [],
    describeSecurityGroups :=
      [.error { Code := some "RequestLimitExceeded", Error := "RequestLimitExceeded: slow down" }],
    runInstances := [.ok [taggedInstance "i-1" "pending" "gaws"]],
    describeInstances := [.ok [{ Instances := [reachableInstance "i-1"] }]] }

/-- Two describe-instances responses in which `i-1` has no DNS name yet. -/
def pendingResponses : List (List Reservation) :=
  [[{ Instances := [taggedInstance "i-1" "pending" "gaws"] }],
   [{ Instances := [taggedInstance "i-0" "running" "gaws", taggedInstance "i-1" "running" "gaws"] }]]

/-- The quoting of `strconv.Quote` on a string that needs no escape; it stands
for `Quote` in the closed examples. -/
def plainQuote (s : String) : String :=
  "\"" ++ s ++ "\""

/-- Backing data of an account with one network and nothing else. -/
def emptyAccount : Cloud :=
  { vpcs := [{ VpcId := "vpc-1" }], groups := [], ingress := [], reservations := [], serial := 0 }

/-- The world after `createSecurityGroup` has created the group `sg1` in the
empty account. -/
def createdWorld : World Cloud :=
  { cloud :=
      { vpcs := [{ VpcId := "vpc-1" }],
        groups := [{ GroupId := "sg-0", GroupName := "sg1", Description := "test", VpcId := "vpc-1" }],
        ingress := [ingressInput "sg1" 80 "1.2.3.4/32"], reservations := [], serial := 1 },
    trace :=
      [Event.call Request.DescribeVpcs none,
       Event.call (Request.CreateSecurityGroup
         { GroupName := "sg1", Description := "test", VpcId := "vpc-1" }) none,
       Event.call (Request.AuthorizeSecurityGroupIngress (ingressInput "sg1" 80 "1.2.3.4/32")) none,
       Event.call (Request.DescribeSecurityGroups
         { Filters := [{ Name := "group-name", Values := ["sg1"] }] }) none] }

/-- Whether a trace entry is a create-security-group call that failed with the
duplicate-name error. -/
def Event.isDuplicateCreate : Event → Bool
  | Event.call (Request.CreateSecurityGroup _) (some err) =>
    decide (err.Code = some "InvalidGroup.Duplicate")
  | _ => false

/-- Whether a trace entry is a describe-security-groups call that failed. -/
def Event.isFailedLookup : Event → Bool
  | Event.call (Request.DescribeSecurityGroups _) (some _) => true
  | _ => false

/-- The entries hold no failed call but the ones the program goes on after: the
create-security-group call that failed with the duplicate-name error, and the
describe-security-groups call right after it. The flag tells whether the entry
before the list is such a create call. -/
def survived : Bool → List Event → Bool
  | _, [] => true
  | afterDuplicate, e :: rest =>
    (!e.failed || e.isDuplicateCreate || (e.isFailedLookup && afterDuplicate)) &&
      survived e.isDuplicateCreate rest

/-- Equality of results is decidable. -/
instance instDecidableEqExcept {ε α : Type} [DecidableEq ε] [DecidableEq α] :
    DecidableEq (Except ε α)
  | .ok a, .ok b =>
    if h : a = b then isTrue (by rw [h]) else isFalse (by intro h2; cases h2; exact h rfl)
  | .error a, .error b =>
    if h : a = b then isTrue (by rw [h]) else isFalse (by intro h2; cases h2; exact h rfl)
  | .ok _, .error _ => isFalse (by intro h; cases h)
  | .error _, .ok _ => isFalse (by intro h; cases h)

/-! ## The boot script -/

theorem string_ext_data (a b : String) (h : a.data = b.data) : a = b := by
  cases a; cases b; simp_all

/-- C8: for every container reference and port, the boot script is the fixed
preamble followed by the line `docker run -it -d -p <p>:<p> --rm <c>`, with the
same decimal port twice and the container reference verbatim. As a Lean function
of its two arguments it has no other input and no effect. -/
theorem getUserData_script (container : String) (port : Int) :
    getUserData container port =
      scriptPreamble ++ "docker run -it -d -p " ++ toString port ++ ":" ++ toString port ++
        " --rm " ++ container := by
  apply string_ext_data
  simp only [String.data_append, getUserData, Sprintf, fmtInt, List.append_assoc]
  conv_rhs => rw [← List.append_nil container.data]
  rfl

/-! ## Resolving an instance by identifier -/

theorem getEC2Instance_none (instances : List Instance) (id : String)
    (h : ∀ r ∈ instances, r.InstanceId ≠ id) :
    getEC2Instance instances id = (none, some (Sprintf "Instance: %s not found." [id])) := by
  induction instances with
  | nil => rfl
  | cons i rest ih =>
    have hi : i.InstanceId ≠ id := h i (List.mem_cons_self _ _)
    have hr : ∀ r ∈ rest, r.InstanceId ≠ id := fun r hr => h r (List.mem_cons_of_mem _ hr)
    simp [getEC2Instance, hi, ih hr]

theorem getEC2Instance_first (pre post : List Instance) (r : Instance) (id : String)
    (hpre : ∀ x ∈ pre, x.InstanceId ≠ id) (hr : r.InstanceId = id) :
    getEC2Instance (pre ++ r :: post) id = (some r, none) := by
  induction pre with
  | nil => simp [getEC2Instance, hr]
  | cons i rest ih =>
    have hi : i.InstanceId ≠ id := hpre i (List.mem_cons_self _ _)
    have hrest : ∀ x ∈ rest, x.InstanceId ≠ id := fun x hx => hpre x (List.mem_cons_of_mem _ hx)
    simp [getEC2Instance, hi, ih hrest]

theorem exists_first_match (instances : List Instance) (id : String)
    (h : ∃ r ∈ instances, r.InstanceId = id) :
    ∃ pre r post, instances = pre ++ r :: post ∧ (∀ x ∈ pre, x.InstanceId ≠ id) ∧
      r.InstanceId = id := by
  induction instances with
  | nil => simp at h
  | cons i rest ih =>
    by_cases hi : i.InstanceId = id
    · exact ⟨[], i, rest, rfl, by simp, hi⟩
    · have h2 : ∃ r ∈ rest, r.InstanceId = id := by
        obtain ⟨r, hr, hrid⟩ := h
        rcases List.mem_cons.mp hr with rfl | hr2
        · exact absurd hrid hi
        · exact ⟨r, hr2, hrid⟩
      obtain ⟨pre, r, post, heq, hpre, hr⟩ := ih h2
      refine ⟨i :: pre, r, post, by simp [heq], ?_, hr⟩
      intro x hx
      rcases List.mem_cons.mp hx with rfl | hx2
      · exact hi
      · exact hpre x hx2

/-- C2: resolving fails with the not-found error exactly when no record of the
list has the identifier, and when exactly one record has it, that record is
returned unchanged and without error. -/
theorem getEC2Instance_resolve (instances : List Instance) (id : String) :
    (getEC2Instance instances id = (none, some ("Instance: " ++ id ++ " not found.")) ↔
        ∀ r ∈ instances, r.InstanceId ≠ id) ∧
      (∀ r, instances.filter (fun x => decide (x.InstanceId = id)) = [r] →
        getEC2Instance instances id = (some r, none)) := by
  constructor
  · constructor
    · intro hnone r hr hid
      obtain ⟨pre, r2, post, heq, hpre, hr2⟩ := exists_first_match instances id ⟨r, hr, hid⟩
      rw [heq, getEC2Instance_first pre post r2 id hpre hr2] at hnone
      cases hnone
    · intro h
      exact getEC2Instance_none instances id h
  · intro r hfilter
    have hmem : r ∈ instances.filter (fun x => decide (x.InstanceId = id)) := by
      rw [hfilter]; exact List.mem_singleton.mpr rfl
    have hr : r ∈ instances ∧ r.InstanceId = id := by simpa using hmem
    obtain ⟨pre, r2, post, heq, hpre, hr2⟩ := exists_first_match instances id ⟨r, hr.1, hr.2⟩
    have hr2mem : r2 ∈ instances.filter (fun x => decide (x.InstanceId = id)) := by
      simp [heq, hr2]
    rw [hfilter] at hr2mem
    have : r2 = r := List.mem_singleton.mp hr2mem
    subst this
    rw [heq]
    exact getEC2Instance_first pre post r2 id hpre hr2

/-- Witness of C2: a list in which no record has the identifier, and a list in
which exactly one has it. -/
theorem getEC2Instance_resolve_witness :
    getEC2Instance
        [{ InstanceId := "i-1", StateName := "running", Tags := [], PublicDnsName := "a",
           PublicIpAddress := "1.1.1.1" }] "i-2" =
        (none, some "Instance: i-2 not found.") ∧
      getEC2Instance
        [{ InstanceId := "i-1", StateName := "running", Tags := [], PublicDnsName := "a",
           PublicIpAddress := "1.1.1.1" },
         { InstanceId := "i-2", StateName := "pending", Tags := [], PublicDnsName := "",
           PublicIpAddress := "" }] "i-2" =
        (some { InstanceId := "i-2", StateName := "pending", Tags := [], PublicDnsName := "",
                PublicIpAddress := "" }, none) :=
  ⟨(getEC2Instance_resolve _ "i-2").1.2 (by decide),
   (getEC2Instance_resolve _ "i-2").2 _ (by decide)⟩
/-- C7 (counterexample): two records carry the identifier `i-1`, and resolving
`i-1` succeeds with the first of them instead of failing. -/
theorem getEC2Instance_duplicate_counterexample :
    2 ≤ (([{ InstanceId := "i-1", StateName := "running", Tags := [], PublicDnsName := "a",
              PublicIpAddress := "1.1.1.1" },
            { InstanceId := "i-1", StateName := "pending", Tags := [], PublicDnsName := "",
              PublicIpAddress := "" }] : List Instance).filter
          (fun x => decide (x.InstanceId = "i-1"))).length ∧
      getEC2Instance
        [{ InstanceId := "i-1", StateName := "running", Tags := [], PublicDnsName := "a",
           PublicIpAddress := "1.1.1.1" },
         { InstanceId := "i-1", StateName := "pending", Tags := [], PublicDnsName := "",
           PublicIpAddress := "" }] "i-1" =
        (some { InstanceId := "i-1", StateName := "running", Tags := [], PublicDnsName := "a",
                PublicIpAddress := "1.1.1.1" }, none) := by
  decide

/-- C7 (amended): when two or more records of the list carry the identifier,
resolving succeeds without error and returns the first of them in list order. -/
theorem getEC2Instance_duplicates_first (instances : List Instance) (id : String)
    (h : 2 ≤ (instances.filter (fun x => decide (x.InstanceId = id))).length) :
    ∃ pre r post, instances = pre ++ r :: post ∧ (∀ x ∈ pre, x.InstanceId ≠ id) ∧
      r.InstanceId = id ∧ getEC2Instance instances id = (some r, none) := by
  have hex : ∃ r ∈ instances, r.InstanceId = id := by
    match hf : instances.filter (fun x => decide (x.InstanceId = id)) with
    | [] => rw [hf] at h; simp at h
    | r :: rest =>
      have hmem : r ∈ instances.filter (fun x => decide (x.InstanceId = id)) := by
        rw [hf]; exact List.mem_cons_self _ _
      have hr : r ∈ instances ∧ r.InstanceId = id := by simpa using hmem
      exact ⟨r, hr.1, hr.2⟩
  obtain ⟨pre, r, post, heq, hpre, hr⟩ := exists_first_match instances id hex
  exact ⟨pre, r, post, heq, hpre, hr, by rw [heq]; exact getEC2Instance_first pre post r id hpre hr⟩

/-- Witness of C7 (amended): the list of the counterexample. -/
theorem getEC2Instance_duplicates_first_witness :
    ∃ pre r post,
      ([{ InstanceId := "i-1", StateName := "running", Tags := [], PublicDnsName := "a",
          PublicIpAddress := "1.1.1.1" },
        { InstanceId := "i-1", StateName := "pending", Tags := [], PublicDnsName := "",
          PublicIpAddress := "" }] : List Instance) = pre ++ r :: post ∧
      (∀ x ∈ pre, x.InstanceId ≠ "i-1") ∧ r.InstanceId = "i-1" ∧
      getEC2Instance
        [{ InstanceId := "i-1", StateName := "running", Tags := [], PublicDnsName := "a",
           PublicIpAddress := "1.1.1.1" },
         { InstanceId := "i-1", StateName := "pending", Tags := [], PublicDnsName := "",
           PublicIpAddress := "" }] "i-1" = (some r, none) :=
  getEC2Instance_duplicates_first _ "i-1" (by decide)

/-! ## Launching the instance -/

theorem utf8Bytes_replicate (n : Nat) :
    (utf8Bytes ⟨List.replicate n 'a'⟩).length = n := by
  induction n with
  | zero => rfl
  | succ k ih =>
    have h1 : (String.utf8EncodeChar 'a').length = 1 := by decide
    simp only [utf8Bytes, List.replicate_succ, List.flatMap_cons, List.length_append, h1] at ih ⊢
    omega

theorem len_oversizedPayload : len oversizedPayload = 16385 :=
  utf8Bytes_replicate 16385

theorem createEC2Request_small (amiID instanceType instanceTagKey instanceTagValue userdata : String)
    (securityGroupIDs : List String) (h : len userdata ≤ MaxUserDataSize) :
    createEC2Request amiID instanceType instanceTagKey instanceTagValue userdata securityGroupIDs =
      .ok (launchRequest amiID instanceType instanceTagKey instanceTagValue userdata
        securityGroupIDs) := by
  have h2 : ¬ (utf8Bytes userdata).length > MaxUserDataSize := by
    unfold len at h; omega
  simp [createEC2Request, toByteSlice, h2, launchRequest]

theorem createEC2Request_large (amiID instanceType instanceTagKey instanceTagValue userdata : String)
    (securityGroupIDs : List String) (h : MaxUserDataSize < len userdata) :
    createEC2Request amiID instanceType instanceTagKey instanceTagValue userdata securityGroupIDs =
      .error (Abort.panic
        ("Instance UserData was too large (" ++ toString (len userdata) ++ " bytes)")) := by
  have h2 : (utf8Bytes userdata).length > MaxUserDataSize := h
  simp only [createEC2Request, toByteSlice, h2, if_true]
  rfl


theorem createEC2_small {σ : Type} (P : Provider σ)
    (amiID instanceType instanceTagKey instanceTagValue userdata : String)
    (securityGroupIDs : List String) (w : World σ) (request : RunInstancesInput)
    (first : Instance) (rest : List Instance)
    (hreq : createEC2Request amiID instanceType instanceTagKey instanceTagValue userdata
      securityGroupIDs = .ok request)
    (hrun : (P.RunInstances request w.cloud).1 = .ok (first :: rest)) :
    createEC2 P amiID instanceType instanceTagKey instanceTagValue userdata securityGroupIDs w =
      (.ok (first :: rest),
        ⟨(P.RunInstances request w.cloud).2,
          w.trace ++ [Event.call (Request.RunInstances request) none]⟩) := by
  simp [createEC2, hreq, invoke, hrun, errorOf]

/-- C1 (counterexample): the payload has 2 bytes and the provider's run-instance
call succeeds, with a reservation that holds no instance; `createEC2` does not
succeed, it stops on the index `runResult.Instances[0]`. -/
theorem createEC2_empty_reservation_counterexample :
    len "hi" ≤ 16384 ∧
      (∀ request, (scripted.RunInstances request (launchScript [])).1 = .ok []) ∧
      (createEC2 scripted "ami-x" "t2.micro" "Name" "x" "hi" ["sg-1"]
        ⟨launchScript [], []⟩).1 = .error Abort.indexOutOfRange :=
  ⟨by decide, fun _ => rfl, by decide⟩

/-- C1 (amended): for a payload of at most 16384 bytes (16384 included) and a
provider whose run-instance call succeeds with at least one instance, `createEC2`
issues that one request, succeeds and returns the provider's instances; for a
payload of more than 16384 bytes it fails with the payload-too-large error and
the world is unchanged: no run-instance request is issued. -/
theorem createEC2_payload_limit {σ : Type} (P : Provider σ)
    (amiID instanceType instanceTagKey instanceTagValue userdata : String)
    (securityGroupIDs : List String) (w : World σ) :
    (len userdata ≤ 16384 →
      ∀ first rest,
        (P.RunInstances
          (launchRequest amiID instanceType instanceTagKey instanceTagValue userdata
            securityGroupIDs) w.cloud).1 = .ok (first :: rest) →
        createEC2 P amiID instanceType instanceTagKey instanceTagValue userdata
            securityGroupIDs w =
          (.ok (first :: rest),
            ⟨(P.RunInstances
                (launchRequest amiID instanceType instanceTagKey instanceTagValue userdata
                  securityGroupIDs) w.cloud).2,
              w.trace ++
                [Event.call
                  (Request.RunInstances
                    (launchRequest amiID instanceType instanceTagKey instanceTagValue userdata
                      securityGroupIDs)) none]⟩)) ∧
      (16384 < len userdata →
        createEC2 P amiID instanceType instanceTagKey instanceTagValue userdata
            securityGroupIDs w =
          (.error (Abort.panic
            ("Instance UserData was too large (" ++ toString (len userdata) ++ " bytes)")), w)) := by
  constructor
  · intro h first rest hrun
    exact createEC2_small P amiID instanceType instanceTagKey instanceTagValue userdata
      securityGroupIDs w _ first rest
      (createEC2Request_small amiID instanceType instanceTagKey instanceTagValue userdata
        securityGroupIDs h) hrun
  · intro h
    simp [createEC2, createEC2Request_large amiID instanceType instanceTagKey instanceTagValue
      userdata securityGroupIDs h]

/-- Witness of C1 (amended): a payload of 2 bytes against a provider that
returns one instance, and a payload of 16385 bytes. -/
theorem createEC2_payload_limit_witness :
    (len "hi" ≤ 16384 ∧
      createEC2 scripted "ami-x" "t2.micro" "Name" "x" "hi" ["sg-1"]
          ⟨launchScript [pendingInstance "i-1"], []⟩ =
        (.ok [pendingInstance "i-1"],
          ⟨(scripted.RunInstances
              (launchRequest "ami-x" "t2.micro" "Name" "x" "hi" ["sg-1"])
              (launchScript [pendingInstance "i-1"])).2,
            [] ++ [Event.call
              (Request.RunInstances (launchRequest "ami-x" "t2.micro" "Name" "x" "hi" ["sg-1"]))
              none]⟩)) ∧
      (16384 < len oversizedPayload ∧
        createEC2 scripted "ami-x" "t2.micro" "Name" "x" oversizedPayload ["sg-1"]
            ⟨launchScript [pendingInstance "i-1"], []⟩ =
          (.error (Abort.panic
            ("Instance UserData was too large (" ++ toString (len oversizedPayload) ++
              " bytes)")), ⟨launchScript [pendingInstance "i-1"], []⟩)) :=
  ⟨⟨by decide,
    (createEC2_payload_limit scripted "ami-x" "t2.micro" "Name" "x" "hi" ["sg-1"]
      ⟨launchScript [pendingInstance "i-1"], []⟩).1 (by decide) (pendingInstance "i-1") [] rfl⟩,
   ⟨Nat.lt_of_lt_of_eq (by decide) len_oversizedPayload.symm,
    (createEC2_payload_limit scripted "ami-x" "t2.micro" "Name" "x" oversizedPayload ["sg-1"]
      ⟨launchScript [pendingInstance "i-1"], []⟩).2
      (Nat.lt_of_lt_of_eq (by decide) len_oversizedPayload.symm)⟩⟩

/-- The model of `base64.StdEncoding.EncodeToString` on the test vectors of RFC 4648. -/
theorem EncodeToString_vectors :
    EncodeToString (utf8Bytes "") = "" ∧ EncodeToString (utf8Bytes "f") = "Zg==" ∧
      EncodeToString (utf8Bytes "fo") = "Zm8=" ∧ EncodeToString (utf8Bytes "foo") = "Zm9v" ∧
      EncodeToString (utf8Bytes "foob") = "Zm9vYg==" ∧
      EncodeToString (utf8Bytes "fooba") = "Zm9vYmE=" ∧
      EncodeToString (utf8Bytes "foobar") = "Zm9vYmFy" := by
  decide

/-- C6 (failing input): with the empty payload, `[]byte(userdata)` is the empty
slice and not nil, so the guard `d != nil` holds and the request `createEC2`
builds and sends carries the user-data field, set to the empty string. -/
theorem createEC2_empty_userdata_sent {σ : Type} (P : Provider σ)
    (amiID instanceType instanceTagKey instanceTagValue : String)
    (securityGroupIDs : List String) (w : World σ) :
    createEC2Request amiID instanceType instanceTagKey instanceTagValue "" securityGroupIDs =
        .ok (launchRequest amiID instanceType instanceTagKey instanceTagValue ""
          securityGroupIDs) ∧
      (launchRequest amiID instanceType instanceTagKey instanceTagValue ""
        securityGroupIDs).UserData = some "" ∧
      (createEC2 P amiID instanceType instanceTagKey instanceTagValue "" securityGroupIDs
        w).2.trace =
        w.trace ++
          [Event.call
            (Request.RunInstances
              (launchRequest amiID instanceType instanceTagKey instanceTagValue ""
                securityGroupIDs))
            (errorOf (P.RunInstances
              (launchRequest amiID instanceType instanceTagKey instanceTagValue ""
                securityGroupIDs) w.cloud).1)] := by
  have hreq := createEC2Request_small amiID instanceType instanceTagKey instanceTagValue ""
    securityGroupIDs (by decide)
  refine ⟨hreq, rfl, ?_⟩
  simp only [createEC2, hreq, invoke]
  cases h : (P.RunInstances
      (launchRequest amiID instanceType instanceTagKey instanceTagValue ""
        securityGroupIDs) w.cloud).1 with
  | error e => rfl
  | ok l => cases l <;> rfl

/-- The part of C6 that holds: for every payload of at most 16384 bytes the
user-data field of the request is the standard base64 encoding of its bytes. -/
theorem createEC2Request_userData
    (amiID instanceType instanceTagKey instanceTagValue userdata : String)
    (securityGroupIDs : List String) (h : len userdata ≤ 16384) :
    ∃ request,
      createEC2Request amiID instanceType instanceTagKey instanceTagValue userdata
        securityGroupIDs = .ok request ∧
      request.UserData = some (EncodeToString (utf8Bytes userdata)) :=
  ⟨_, createEC2Request_small amiID instanceType instanceTagKey instanceTagValue userdata
    securityGroupIDs h, rfl⟩

/-! ## Finding instances by tag -/

theorem foldl_append_singleton (acc l : List Instance) :
    l.foldl (fun instances inst => instances ++ [inst]) acc = acc ++ l := by
  induction l generalizing acc with
  | nil => simp
  | cons x xs ih => simp [List.foldl_cons, ih]

theorem collectInstances_foldl (acc : List Instance) (rs : List Reservation) :
    rs.foldl
        (fun instances res => res.Instances.foldl (fun instances inst => instances ++ [inst])
          instances) acc =
      acc ++ rs.flatMap (fun r => r.Instances) := by
  induction rs generalizing acc with
  | nil => simp
  | cons r rest ih =>
    rw [List.foldl_cons, ih, foldl_append_singleton, List.flatMap_cons, List.append_assoc]

theorem collectInstances_eq (rs : List Reservation) :
    collectInstances rs = rs.flatMap (fun r => r.Instances) := by
  simp [collectInstances, collectInstances_foldl]

theorem tag_name_injective (a b : String) (h : "tag:" ++ a = "tag:" ++ b) : a = b := by
  have hd := congrArg String.data h
  simp only [String.data_append] at hd
  exact string_ext_data a b (List.append_cancel_left hd)

theorem tag_name_ne_state (a : String) : "tag:" ++ a ≠ "instance-state-name" := by
  intro h
  have hd := congrArg (fun s => s.data.head?) h
  simp only [String.data_append] at hd
  have h2 : (['t', 'a', 'g', ':'] ++ a.data).head? = some 't' := rfl
  rw [h2] at hd
  revert hd
  decide

theorem instancePasses_state (i : Instance) (values : List String) :
    instancePasses i { Name := "instance-state-name", Values := values } = true ↔
      i.StateName ∈ values := by
  simp [instancePasses]

theorem instancePasses_tag (i : Instance) (k v : String) :
    instancePasses i { Name := "tag:" ++ k, Values := [v] } = true ↔
      ({ Key := k, Value := v } : Tag) ∈ i.Tags := by
  simp only [instancePasses, tag_name_ne_state, if_false, List.any_eq_true, Bool.and_eq_true,
    decide_eq_true_eq, List.mem_singleton]
  constructor
  · rintro ⟨t, ht, hk, hv⟩
    have hkey : t.Key = k := tag_name_injective _ _ hk
    have : t = { Key := k, Value := v } := by
      cases t; simp_all
    rw [← this]; exact ht
  · intro h
    exact ⟨_, h, rfl, rfl⟩

theorem mem_cloud_describe (s : Cloud) (k v : String) (i : Instance) :
    i ∈ collectInstances (((s.reservations.map (selectInstances (describeParams k v).Filters)).filter
        (fun r => decide (r.Instances ≠ [])))) ↔
      (∃ r ∈ s.reservations, i ∈ r.Instances) ∧ i.StateName ∈ ["running", "pending"] ∧
        ({ Key := k, Value := v } : Tag) ∈ i.Tags := by
  rw [collectInstances_eq]
  simp only [List.mem_flatMap, List.mem_filter, List.mem_map, decide_eq_true_eq]
  constructor
  · rintro ⟨r, ⟨⟨r0, hr0, rfl⟩, _⟩, hi⟩
    simp only [selectInstances, describeParams, List.mem_filter, List.all_cons, List.all_nil,
      Bool.and_true, Bool.and_eq_true, instancePasses_tag, instancePasses_state] at hi
    exact ⟨⟨r0, hr0, hi.1⟩, hi.2.2, hi.2.1⟩
  · rintro ⟨⟨r0, hr0, hi⟩, hstate, htag⟩
    have hmem : i ∈ (selectInstances (describeParams k v).Filters r0).Instances := by
      simp only [selectInstances, describeParams, List.mem_filter, List.all_cons, List.all_nil,
        Bool.and_true, Bool.and_eq_true, instancePasses_tag, instancePasses_state]
      exact ⟨hi, htag, hstate⟩
    exact ⟨_, ⟨⟨r0, hr0, rfl⟩, List.ne_nil_of_mem hmem⟩, hmem⟩

/-- C9: the request of `getEC2` carries exactly two filters, `tag:<key>` with
the value and `instance-state-name` with running and pending; its result is
every instance of every reservation of the response, in order; and over backing
data with any mixture of states the result holds exactly the instances that are
pending or running and carry the tag, so none that is terminated or stopped. -/
theorem getEC2_filters {σ : Type} (P : Provider σ) (tagKey tagValue : String) (w : World σ)
    (backing : Cloud) (trace : List Event) :
    (getEC2 P tagKey tagValue w).2.trace =
        w.trace ++
          [Event.call
            (Request.DescribeInstances
              { Filters :=
                  [{ Name := "tag:" ++ tagKey, Values := [tagValue] },
                   { Name := "instance-state-name", Values := ["running", "pending"] }] })
            (errorOf (P.DescribeInstances (describeParams tagKey tagValue) w.cloud).1)] ∧
      (∀ resp, (P.DescribeInstances (describeParams tagKey tagValue) w.cloud).1 = .ok resp →
        (getEC2 P tagKey tagValue w).1 = .ok (resp.flatMap (fun r => r.Instances))) ∧
      (∃ instances,
        (getEC2 cloud tagKey tagValue ⟨backing, trace⟩).1 = .ok instances ∧
        (∀ i, i ∈ instances ↔
          (∃ r ∈ backing.reservations, i ∈ r.Instances) ∧
            (i.StateName = "running" ∨ i.StateName = "pending") ∧
            ({ Key := tagKey, Value := tagValue } : Tag) ∈ i.Tags) ∧
        (∀ i ∈ instances, i.StateName ≠ "terminated" ∧ i.StateName ≠ "stopped")) := by
  refine ⟨?_, ?_, ?_⟩
  · simp only [getEC2, invoke]
    cases (P.DescribeInstances (describeParams tagKey tagValue) w.cloud).1 <;> rfl
  · intro resp h
    simp only [getEC2, invoke, h, collectInstances_eq]
  · refine ⟨_, rfl, ?_, ?_⟩
    · intro i
      have h := mem_cloud_describe backing tagKey tagValue i
      simp only [List.mem_cons, List.mem_singleton, List.mem_nil_iff, or_false] at h
      exact h
    · intro i hi
      have h := (mem_cloud_describe backing tagKey tagValue i).mp hi
      have hs := h.2.1
      simp only [List.mem_cons, List.mem_singleton, List.mem_nil_iff, or_false] at hs
      rcases hs with hs | hs <;> rw [hs] <;> decide

/-- Witness of C9: over the mixed backing data the response has two
reservations, and the result is their running and pending instances, in order. -/
theorem getEC2_filters_witness :
    (getEC2 cloud "Name" "gaws" ⟨mixedBacking, []⟩).1 =
      .ok [taggedInstance "i-1" "running" "gaws", taggedInstance "i-5" "pending" "gaws"] :=
  (getEC2_filters cloud "Name" "gaws" ⟨mixedBacking, []⟩ mixedBacking []).2.1
    [{ Instances := [taggedInstance "i-1" "running" "gaws"] },
     { Instances := [taggedInstance "i-5" "pending" "gaws"] }] (by decide)

/-! ## The wait of `run` -/

theorem getEC2_ok {σ : Type} (P : Provider σ) (tagKey tagValue : String) (w : World σ)
    (resp : List Reservation)
    (h : (P.DescribeInstances (describeParams tagKey tagValue) w.cloud).1 = .ok resp) :
    getEC2 P tagKey tagValue w =
      (.ok (collectInstances resp),
        ⟨(P.DescribeInstances (describeParams tagKey tagValue) w.cloud).2,
          w.trace ++ [describeCall tagKey tagValue]⟩) := by
  simp [getEC2, invoke, h, errorOf, describeCall]

theorem pollLoop_done {σ : Type} (P : Provider σ) (tagKey tagValue id : String) (fuel : Nat)
    (rec : Instance) (w : World σ) (h : rec.PublicDnsName ≠ "") :
    pollLoop P tagKey tagValue id fuel (some rec) none w = (some (.ok rec), w) := by
  cases fuel <;> simp [pollLoop, h, report, check]

theorem pollEvents_succ (tagKey tagValue : String) (n : Nat) :
    pollEvents tagKey tagValue (n + 1) =
      Event.sleep 500 :: describeCall tagKey tagValue :: pollEvents tagKey tagValue n := by
  simp [pollEvents, List.replicate_succ]

theorem pollLoop_resolves {σ : Type} (P : Provider σ) (tagKey tagValue id : String)
    (last : List Reservation) (rec : Instance) (t : σ)
    (hlast : getEC2Instance (collectInstances last) id = (some rec, none))
    (hrec : rec.PublicDnsName ≠ "") :
    ∀ (pre : List (List Reservation)) (fuel : Nat) (cur : Instance) (err : Option String)
      (w : World σ),
      Responses P (describeParams tagKey tagValue) w.cloud (pre ++ [last]) t →
      (∀ r ∈ pre, ∃ i, getEC2Instance (collectInstances r) id = (some i, none) ∧
        i.PublicDnsName = "") →
      cur.PublicDnsName = "" → pre.length + 1 ≤ fuel →
      pollLoop P tagKey tagValue id fuel (some cur) err w =
        (some (.ok rec), ⟨t, w.trace ++ pollEvents tagKey tagValue (pre.length + 1)⟩) := by
  intro pre
  induction pre with
  | nil =>
    intro fuel cur err w hresp _ hcur hfuel
    obtain ⟨f, rfl⟩ : ∃ f, fuel = f + 1 := ⟨fuel - 1, by simp at hfuel; omega⟩
    simp only [List.nil_append, Responses] at hresp
    have hget := getEC2_ok P tagKey tagValue (sleep 500 w) last hresp.1
    simp only [pollLoop, hcur, if_true, hget, hlast]
    rw [pollLoop_done P tagKey tagValue id f rec _ hrec]
    simp [sleep, pollEvents, hresp.2]
  | cons r pre ih =>
    intro fuel cur err w hresp hpre hcur hfuel
    obtain ⟨f, rfl⟩ : ∃ f, fuel = f + 1 := ⟨fuel - 1, by simp at hfuel; omega⟩
    simp only [List.cons_append, Responses] at hresp
    obtain ⟨i, hi, hdns⟩ := hpre r (List.mem_cons_self _ _)
    have hget := getEC2_ok P tagKey tagValue (sleep 500 w) r hresp.1
    simp only [pollLoop, hcur, if_true, hget, hi]
    rw [ih f i none _ hresp.2 (fun x hx => hpre x (List.mem_cons_of_mem _ hx)) hdns
      (by simp at hfuel ⊢; omega)]
    simp [sleep, pollEvents_succ (n := pre.length + 1)]

/-- C5: when the first `n` describe-instances responses resolve the launched
instance with an empty public DNS name and response `n + 1` resolves it with a
name that is not empty, the wait of `run`, given fuel for `n` iterations or
more, ends with the record of response `n + 1`; it has issued one call before
the loop and one per iteration, `n + 1` in all, each after a sleep of 500 ms but
the first, and the provider is left in the state after response `n + 1`. -/
theorem awaitPublicDns_terminates {σ : Type} (P : Provider σ) (tagKey tagValue id : String)
    (pre : List (List Reservation)) (last : List Reservation) (rec : Instance) (t : σ)
    (fuel : Nat) (w : World σ)
    (hresp : Responses P (describeParams tagKey tagValue) w.cloud (pre ++ [last]) t)
    (hpre : ∀ r ∈ pre, ∃ i, getEC2Instance (collectInstances r) id = (some i, none) ∧
      i.PublicDnsName = "")
    (hlast : getEC2Instance (collectInstances last) id = (some rec, none))
    (hrec : rec.PublicDnsName ≠ "") (hfuel : pre.length ≤ fuel) :
    awaitPublicDns P fuel tagKey tagValue id w =
        (some (.ok rec),
          ⟨t, w.trace ++ describeCall tagKey tagValue :: pollEvents tagKey tagValue pre.length⟩) ∧
      ((describeCall tagKey tagValue :: pollEvents tagKey tagValue pre.length).filter
        Event.isDescribeInstances).length = pre.length + 1 ∧
      ((describeCall tagKey tagValue :: pollEvents tagKey tagValue pre.length).filter
        Event.isSleep).length = pre.length := by
  refine ⟨?_, ?_, ?_⟩
  · cases pre with
    | nil =>
      simp only [List.nil_append, Responses] at hresp
      simp only [awaitPublicDns, getEC2_ok P tagKey tagValue w last hresp.1, hlast]
      rw [pollLoop_done P tagKey tagValue id fuel rec _ hrec]
      simp [pollEvents, hresp.2]
    | cons r pre =>
      simp only [List.cons_append, Responses] at hresp
      obtain ⟨i, hi, hdns⟩ := hpre r (List.mem_cons_self _ _)
      simp only [awaitPublicDns, getEC2_ok P tagKey tagValue w r hresp.1, hi]
      rw [pollLoop_resolves P tagKey tagValue id last rec t hlast hrec pre fuel i none _ hresp.2
        (fun x hx => hpre x (List.mem_cons_of_mem _ hx)) hdns (by simpa using hfuel)]
      simp
  · induction pre.length with
    | zero => simp [pollEvents, describeCall, Event.isDescribeInstances]
    | succ n ih =>
      simp only [pollEvents_succ, List.filter_cons, describeCall, Event.isDescribeInstances,
        Event.isSleep] at ih ⊢
      simp at ih ⊢
      omega
  · induction pre.length with
    | zero => simp [pollEvents, describeCall, Event.isSleep]
    | succ n ih =>
      simp only [pollEvents_succ, List.filter_cons, describeCall, Event.isDescribeInstances,
        Event.isSleep] at ih ⊢
      simp at ih ⊢
      omega

/-- Witness of C5: two responses without a DNS name, then one with it. -/
theorem awaitPublicDns_terminates_witness :
    awaitPublicDns scripted 2 "Name" "gaws" "i-1"
        ⟨describeScript (pendingResponses ++ [[{ Instances := [reachableInstance "i-1"] }]]),
          []⟩ =
      (some (.ok (reachableInstance "i-1")),
        ⟨describeScript [],
          [] ++ describeCall "Name" "gaws" :: pollEvents "Name" "gaws" pendingResponses.length⟩) :=
  (awaitPublicDns_terminates scripted "Name" "gaws" "i-1" pendingResponses
    [{ Instances := [reachableInstance "i-1"] }] (reachableInstance "i-1") (describeScript []) 2
    ⟨describeScript (pendingResponses ++ [[{ Instances := [reachableInstance "i-1"] }]]), []⟩
    (by exact ⟨rfl, rfl, rfl, rfl⟩)
    (by
      intro r hr
      simp only [pendingResponses, List.mem_cons, List.mem_singleton, List.mem_nil_iff,
        or_false] at hr
      rcases hr with rfl | rfl
      · exact ⟨taggedInstance "i-1" "pending" "gaws", by decide, by decide⟩
      · exact ⟨taggedInstance "i-1" "running" "gaws", by decide, by decide⟩)
    (by decide) (by decide) (by decide)).1

/-! ## Errors in `run` -/

theorem pollLoop_nil {σ : Type} (P : Provider σ) (tagKey tagValue id : String) (fuel : Nat)
    (err : Option String) (w : World σ) :
    pollLoop P tagKey tagValue id fuel none err w = (some (.error Abort.nilDereference), w) := by
  cases fuel <;> rfl

/-- The defect behind C10, for every provider: when the launched identifier
is not in the first describe-instances response, the wait stops on the nil
dereference of the loop condition, right after that call. -/
theorem awaitPublicDns_unresolved {σ : Type} (P : Provider σ) (fuel : Nat)
    (tagKey tagValue id : String) (w : World σ) (resp : List Reservation)
    (hresp : (P.DescribeInstances (describeParams tagKey tagValue) w.cloud).1 = .ok resp)
    (hnone : ∀ r ∈ collectInstances resp, r.InstanceId ≠ id) :
    awaitPublicDns P fuel tagKey tagValue id w =
      (some (.error Abort.nilDereference),
        ⟨(P.DescribeInstances (describeParams tagKey tagValue) w.cloud).2,
          w.trace ++ [describeCall tagKey tagValue]⟩) := by
  simp only [awaitPublicDns, getEC2_ok P tagKey tagValue w resp hresp,
    getEC2Instance_none _ id hnone, pollLoop_nil]

theorem pollLoop_unresolved {σ : Type} (P : Provider σ) (tagKey tagValue id : String)
    (last : List Reservation) (t : σ)
    (hlast : ∀ r ∈ collectInstances last, r.InstanceId ≠ id) :
    ∀ (pre : List (List Reservation)) (fuel : Nat) (cur : Instance) (err : Option String)
      (w : World σ),
      Responses P (describeParams tagKey tagValue) w.cloud (pre ++ [last]) t →
      (∀ r ∈ pre, ∃ i, getEC2Instance (collectInstances r) id = (some i, none) ∧
        i.PublicDnsName = "") →
      cur.PublicDnsName = "" → pre.length + 1 ≤ fuel →
      pollLoop P tagKey tagValue id fuel (some cur) err w =
        (some (.error Abort.nilDereference),
          ⟨t, w.trace ++ pollEvents tagKey tagValue (pre.length + 1)⟩) := by
  intro pre
  induction pre with
  | nil =>
    intro fuel cur err w hresp _ hcur hfuel
    obtain ⟨f, rfl⟩ : ∃ f, fuel = f + 1 := ⟨fuel - 1, by simp at hfuel; omega⟩
    simp only [List.nil_append, Responses] at hresp
    have hget := getEC2_ok P tagKey tagValue (sleep 500 w) last hresp.1
    simp only [pollLoop, hcur, if_true, hget, getEC2Instance_none _ id hlast, pollLoop_nil]
    simp [sleep, pollEvents, hresp.2]
  | cons r pre ih =>
    intro fuel cur err w hresp hpre hcur hfuel
    obtain ⟨f, rfl⟩ : ∃ f, fuel = f + 1 := ⟨fuel - 1, by simp at hfuel; omega⟩
    simp only [List.cons_append, Responses] at hresp
    obtain ⟨i, hi, hdns⟩ := hpre r (List.mem_cons_self _ _)
    have hget := getEC2_ok P tagKey tagValue (sleep 500 w) r hresp.1
    simp only [pollLoop, hcur, if_true, hget, hi]
    rw [ih f i none _ hresp.2 (fun x hx => hpre x (List.mem_cons_of_mem _ hx)) hdns
      (by simp at hfuel ⊢; omega)]
    simp [sleep, pollEvents_succ (n := pre.length + 1)]

/-- The defect behind C10 in a polling iteration, for every provider: when the
launched instance is resolved without a DNS name in the first `n` responses and
is not in response `n + 1`, the wait stops on the nil dereference right after
call `n + 1`, whatever fuel is left. -/
theorem awaitPublicDns_unresolved_later {σ : Type} (P : Provider σ)
    (tagKey tagValue id : String) (pre : List (List Reservation)) (last : List Reservation)
    (t : σ) (fuel : Nat) (w : World σ)
    (hresp : Responses P (describeParams tagKey tagValue) w.cloud (pre ++ [last]) t)
    (hpre : ∀ r ∈ pre, ∃ i, getEC2Instance (collectInstances r) id = (some i, none) ∧
      i.PublicDnsName = "")
    (hlast : ∀ r ∈ collectInstances last, r.InstanceId ≠ id) (hfuel : pre.length ≤ fuel) :
    awaitPublicDns P fuel tagKey tagValue id w =
      (some (.error Abort.nilDereference),
        ⟨t, w.trace ++ describeCall tagKey tagValue :: pollEvents tagKey tagValue pre.length⟩) := by
  cases pre with
  | nil =>
    simp only [List.nil_append, Responses] at hresp
    rw [awaitPublicDns_unresolved P fuel tagKey tagValue id w last hresp.1 hlast]
    simp [pollEvents, hresp.2]
  | cons r pre =>
    simp only [List.cons_append, Responses] at hresp
    obtain ⟨i, hi, hdns⟩ := hpre r (List.mem_cons_self _ _)
    simp only [awaitPublicDns, getEC2_ok P tagKey tagValue w r hresp.1, hi]
    rw [pollLoop_unresolved P tagKey tagValue id last t hlast pre fuel i none _ hresp.2
      (fun x hx => hpre x (List.mem_cons_of_mem _ hx)) hdns (by simpa using hfuel)]
    simp

/-- C10 (failing input): the launch succeeds and the launched instance is not in
a describe-instances response, at the first resolution or in a polling
iteration. Resolving fails with the not-found error, and the run stops on the
nil dereference of the loop condition `*instance.PublicDnsName`, before
`check(err, "Could not find instance")` is reached: the abort is a runtime panic
and not the not-found error. No sleep and no describe-instances call follows. -/
theorem run_unresolved_nil_dereference (Quote : String → String) (fuel : Nat) :
    getEC2Instance (collectInstances []) "i-1" = (none, some "Instance: i-1 not found.") ∧
      run scripted Quote fuel defaultInput ⟨freshRunScript [[]], []⟩ =
        (some (.error Abort.nilDereference),
          ⟨describeScript [],
            [Event.call Request.DescribeVpcs none,
             Event.call (Request.CreateSecurityGroup
               { GroupName := "gaws-SG", Description := "Allow access to my docker container",
                 VpcId := "vpc-1" }) none,
             Event.call (Request.AuthorizeSecurityGroupIngress
               (ingressInput "gaws-SG" 80 "1.2.3.4/32")) none,
             Event.call (Request.DescribeSecurityGroups
               { Filters := [{ Name := "group-name", Values := ["gaws-SG"] }] }) none,
             Event.call (Request.RunInstances
               (launchRequest "ami-97785bed" "t2.micro" "Name" "gaws"
                 (getUserData "stevemcquaid/python-flask-docker-hello-world:latest" 80)
                 ["sg-1"])) none,
             describeCall "Name" "gaws"]⟩) ∧
      (run scripted Quote (fuel + 1) defaultInput
          ⟨freshRunScript [[{ Instances := [taggedInstance "i-1" "pending" "gaws"] }], []],
            []⟩).1 = some (.error Abort.nilDereference) ∧
      (run scripted Quote (fuel + 1) defaultInput
          ⟨freshRunScript [[{ Instances := [taggedInstance "i-1" "pending" "gaws"] }], []],
            []⟩).2.trace.map Event.outline =
        [("DescribeVpcs", false), ("CreateSecurityGroup", false),
         ("AuthorizeSecurityGroupIngress", false), ("DescribeSecurityGroups", false),
         ("RunInstances", false), ("DescribeInstances", false), ("Sleep", false),
         ("DescribeInstances", false)] := by
  refine ⟨by decide, ?_, ?_, ?_⟩
  · cases fuel <;> rfl
  · cases fuel <;> rfl
  · cases fuel <;> rfl

/-- C4 (failing input): the group exists already and the lookup of the group by
name on the reuse path fails. The error of `getGroups` is dropped
(`result, _ := getGroups(...)`), `createSecurityGroup` returns no group and no
error, and the run goes on: it launches the instance without a security group,
waits, and ends with a result. -/
theorem run_continues_after_failed_lookup (Quote : String → String) (fuel : Nat) :
    run scripted Quote fuel defaultInput ⟨failedLookupScript, []⟩ =
      (some (.ok (reachableInstance "i-1")),
        ⟨describeScript [],
          [Event.call Request.DescribeVpcs none,
           Event.call (Request.CreateSecurityGroup
             { GroupName := "gaws-SG", Description := "Allow access to my docker container",
               VpcId := "vpc-1" })
             (some { Code := some "InvalidGroup.Duplicate",
                     Error := "InvalidGroup.Duplicate: exists" }),
           Event.call (Request.DescribeSecurityGroups
             { Filters := [{ Name := "group-name", Values := ["gaws-SG"] }] })
             (some { Code := some "RequestLimitExceeded",
                     Error := "RequestLimitExceeded: slow down" }),
           Event.call (Request.RunInstances
             (launchRequest "ami-97785bed" "t2.micro" "Name" "gaws"
               (getUserData "stevemcquaid/python-flask-docker-hello-world:latest" 80) []))
             none,
           describeCall "Name" "gaws"]⟩) := by
  cases fuel <;> rfl


/-! ## The security group -/

theorem cloud_DescribeVpcs (s : Cloud) : cloud.DescribeVpcs s = (.ok s.vpcs, s) := rfl

theorem cloud_CreateSecurityGroup (input : CreateSecurityGroupInput) (s : Cloud) :
    cloud.CreateSecurityGroup input s =
      if s.vpcs.all (fun v => decide (v.VpcId ≠ input.VpcId)) then
        (.error { Code := some "InvalidVpcID.NotFound", Error := "InvalidVpcID.NotFound" }, s)
      else if s.groups.any (fun g => decide (g.GroupName = input.GroupName)) then
        (.error { Code := some "InvalidGroup.Duplicate", Error := "InvalidGroup.Duplicate" }, s)
      else
        (.ok ("sg-" ++ toString s.serial),
          { s with
            groups := s.groups ++
              [{ GroupId := "sg-" ++ toString s.serial, GroupName := input.GroupName,
                 Description := input.Description, VpcId := input.VpcId }],
            serial := s.serial + 1 }) := rfl

theorem cloud_AuthorizeSecurityGroupIngress (input : AuthorizeSecurityGroupIngressInput)
    (s : Cloud) :
    cloud.AuthorizeSecurityGroupIngress input s =
      if s.groups.any (fun g => decide (g.GroupName = input.GroupName)) then
        (.ok (), { s with ingress := s.ingress ++ [input] })
      else
        (.error { Code := some "InvalidGroup.NotFound", Error := "InvalidGroup.NotFound" }, s) :=
  rfl

theorem cloud_DescribeSecurityGroups_name (name : String) (s : Cloud) :
    cloud.DescribeSecurityGroups { Filters := [{ Name := "group-name", Values := [name] }] } s =
      (.ok (s.groups.filter (fun g => decide (g.GroupName = name))), s) := by
  show (Except.ok (s.groups.filter _), s) = _
  congr 2
  apply List.filter_congr
  intro g _
  simp [groupPasses]

theorem resolveVpc_cloud (vpcID : String) (w : World Cloud) :
    (resolveVpc cloud vpcID w).2.cloud = w.cloud ∧
      ∃ t, (resolveVpc cloud vpcID w).2.trace = w.trace ++ t ∧
        ∀ e ∈ t, e.isAuthorize = false := by
  unfold resolveVpc
  split
  · simp only [invoke, cloud_DescribeVpcs]
    cases w.cloud.vpcs with
    | nil => exact ⟨rfl, _, rfl, by simp [Event.isAuthorize]⟩
    | cons v vs => exact ⟨rfl, _, rfl, by simp [Event.isAuthorize]⟩
  · exact ⟨rfl, [], by simp, by simp⟩

theorem resolveVpc_cloud_result (vpcID : String) (w w2 : World Cloud)
    (h : w2.cloud.vpcs = w.cloud.vpcs) :
    (resolveVpc cloud vpcID w2).1 = (resolveVpc cloud vpcID w).1 := by
  unfold resolveVpc
  split
  · simp only [invoke, cloud_DescribeVpcs, h]
    cases w.cloud.vpcs <;> rfl
  · rfl

theorem createSecurityGroup_cloud_reuse (Quote : String → String) (name desc vpcID : String)
    (port : Int) (cidr : String) (w : World Cloud) (v : String)
    (hname : len name ≠ 0) (hdesc : len desc ≠ 0)
    (hv : (resolveVpc cloud vpcID w).1 = .ok v)
    (hvpc : w.cloud.vpcs.all (fun x => decide (x.VpcId ≠ v)) = false)
    (hdup : w.cloud.groups.any (fun g => decide (g.GroupName = name)) = true) :
    createSecurityGroup cloud Quote name desc vpcID port cidr w =
      (.ok (w.cloud.groups.filter (fun g => decide (g.GroupName = name))),
        ⟨w.cloud,
          (resolveVpc cloud vpcID w).2.trace ++
            [Event.call
              (Request.CreateSecurityGroup { GroupName := name, Description := desc, VpcId := v })
              (some { Code := some "InvalidGroup.Duplicate", Error := "InvalidGroup.Duplicate" }),
             Event.call
              (Request.DescribeSecurityGroups
                { Filters := [{ Name := "group-name", Values := [name] }] }) none]⟩) := by
  have hc := (resolveVpc_cloud vpcID w).1
  rcases hrv : resolveVpc cloud vpcID w with ⟨r, wv⟩
  rw [hrv] at hv hc
  simp only at hv hc
  subst hv
  have hvalid : ¬ (len name = 0 ∨ len desc = 0) := by simp [hname, hdesc]
  simp only [createSecurityGroup, hvalid, if_false, hrv, invoke, cloud_CreateSecurityGroup, hc, hvpc,
    hdup, if_true, getGroups, List.nil_append, List.map_cons, List.map_nil,
    cloud_DescribeSecurityGroups_name, errorOf]
  simp

theorem createSecurityGroup_cloud_ok (Quote : String → String) (name desc vpcID : String)
    (port : Int) (cidr : String) (w w1 : World Cloud) (groups : List SecurityGroup)
    (h1 : createSecurityGroup cloud Quote name desc vpcID port cidr w = (.ok groups, w1)) :
    len name ≠ 0 ∧ len desc ≠ 0 ∧
      (∃ v, (resolveVpc cloud vpcID w).1 = .ok v ∧
        w.cloud.vpcs.all (fun x => decide (x.VpcId ≠ v)) = false) ∧
      w1.cloud.vpcs = w.cloud.vpcs ∧
      w1.cloud.groups.any (fun g => decide (g.GroupName = name)) = true ∧
      groups = w1.cloud.groups.filter (fun g => decide (g.GroupName = name)) := by
  have hc := (resolveVpc_cloud vpcID w).1
  unfold createSecurityGroup at h1
  by_cases hvalid : len name = 0 ∨ len desc = 0
  · simp [hvalid] at h1
  · simp only [hvalid, if_false] at h1
    have hname : len name ≠ 0 := fun h => hvalid (Or.inl h)
    have hdesc : len desc ≠ 0 := fun h => hvalid (Or.inr h)
    rcases hrv : resolveVpc cloud vpcID w with ⟨r, wv⟩
    rw [hrv] at h1 hc
    simp only at hc
    cases r with
    | error a => simp at h1
    | ok v =>
      simp only [invoke, cloud_CreateSecurityGroup, hc] at h1
      by_cases hvpc : w.cloud.vpcs.all (fun x => decide (x.VpcId ≠ v)) = true
      · simp only [hvpc, if_true] at h1
        simp at h1
      · have hvpc2 : w.cloud.vpcs.all (fun x => decide (x.VpcId ≠ v)) = false := by
          simpa using hvpc
        by_cases hdup : w.cloud.groups.any (fun g => decide (g.GroupName = name)) = true
        · simp only [hvpc2, hdup, if_true, Bool.false_eq_true, if_false, getGroups,
            List.nil_append, List.map_cons, List.map_nil, invoke,
            cloud_DescribeSecurityGroups_name] at h1
          simp at h1
          obtain ⟨hg, hw⟩ := h1
          subst hw
          exact ⟨hname, hdesc, ⟨v, rfl, hvpc2⟩, rfl, hdup, hg.symm⟩
        · have hdup2 : w.cloud.groups.any (fun g => decide (g.GroupName = name)) = false := by
            simpa using hdup
          simp only [hvpc2, hdup2, Bool.false_eq_true, if_false, getGroups,
            List.nil_append, List.map_cons, List.map_nil, invoke, ingressInput,
            cloud_AuthorizeSecurityGroupIngress, List.any_append, List.any_cons, List.any_nil,
            decide_True, Bool.or_true, Bool.true_or, Bool.or_false, if_true,
            cloud_DescribeSecurityGroups_name] at h1
          simp at h1
          obtain ⟨hg, hw⟩ := h1
          subst hw
          refine ⟨hname, hdesc, ⟨v, rfl, hvpc2⟩, rfl, ?_, ?_⟩
          · simp
          · rw [← hg]
            simp [List.filter_append]

/-- C3: over the provider with backing data, where created groups persist and
creating a group whose name exists fails with the duplicate-name error, when a
call of `createSecurityGroup` has returned, a second call with the same name
(and a description that is not empty) raises no error, returns the same groups,
hence the same group identifiers, leaves the backing data as it is, and none of
the requests it issues is an authorize-ingress request. -/
theorem createSecurityGroup_idempotent (Quote : String → String)
    (name desc desc2 vpcID : String) (port port2 : Int) (cidr cidr2 : String)
    (w w1 : World Cloud) (groups : List SecurityGroup)
    (hdesc2 : len desc2 ≠ 0)
    (h1 : createSecurityGroup cloud Quote name desc vpcID port cidr w = (.ok groups, w1)) :
    ∃ t,
      createSecurityGroup cloud Quote name desc2 vpcID port2 cidr2 w1 =
        (.ok groups, ⟨w1.cloud, w1.trace ++ t⟩) ∧
      ∀ e ∈ t, e.isAuthorize = false := by
  obtain ⟨hname, _, ⟨v, hv, hvpc⟩, hvpcs, hdup, hg⟩ :=
    createSecurityGroup_cloud_ok Quote name desc vpcID port cidr w w1 groups h1
  have hv1 : (resolveVpc cloud vpcID w1).1 = .ok v := by
    rw [resolveVpc_cloud_result vpcID w w1 hvpcs]; exact hv
  have hvpc1 : w1.cloud.vpcs.all (fun x => decide (x.VpcId ≠ v)) = false := by
    rw [hvpcs]; exact hvpc
  have hcall := createSecurityGroup_cloud_reuse Quote name desc2 vpcID port2 cidr2 w1 v hname
    hdesc2 hv1 hvpc1 hdup
  obtain ⟨_, t0, ht0, hauth⟩ := resolveVpc_cloud vpcID w1
  refine ⟨t0 ++
    [Event.call
      (Request.CreateSecurityGroup { GroupName := name, Description := desc2, VpcId := v })
      (some { Code := some "InvalidGroup.Duplicate", Error := "InvalidGroup.Duplicate" }),
     Event.call
      (Request.DescribeSecurityGroups { Filters := [{ Name := "group-name", Values := [name] }] })
      none], ?_, ?_⟩
  · rw [hcall, ht0, ← hg, List.append_assoc]
  · intro e he
    rcases List.mem_append.mp he with h | h
    · exact hauth e h
    · simp only [List.mem_cons, List.mem_singleton, List.mem_nil_iff, or_false] at h
      rcases h with rfl | rfl <;> rfl

/-- Witness of C3: in an account with one network and no group, the first call
creates the group `sg1`; the second call is made in the world the first one left. -/
theorem createSecurityGroup_idempotent_witness :
    ∃ t,
      createSecurityGroup cloud plainQuote "sg1" "test" "" 80 "1.2.3.4/32" createdWorld =
        (.ok [{ GroupId := "sg-0", GroupName := "sg1", Description := "test", VpcId := "vpc-1" }],
          ⟨createdWorld.cloud, createdWorld.trace ++ t⟩) ∧
      ∀ e ∈ t, e.isAuthorize = false :=
  createSecurityGroup_idempotent plainQuote "sg1" "test" "test" "" 80 80 "1.2.3.4/32" "1.2.3.4/32"
    ⟨emptyAccount, []⟩ createdWorld
    [{ GroupId := "sg-0", GroupName := "sg1", Description := "test", VpcId := "vpc-1" }]
    (by decide) (by rfl)


/-! ## Failed calls in `run` -/

theorem survived_mono (b : Bool) (t : List Event) (h : survived false t = true) :
    survived b t = true := by
  cases t with
  | nil => rfl
  | cons e rest =>
    simp only [survived, Bool.and_eq_true, Bool.or_eq_true, Bool.and_false, Bool.or_false] at h ⊢
    exact ⟨Or.inl h.1, h.2⟩

theorem survived_append (b : Bool) (t1 t2 : List Event) (h1 : survived b t1 = true)
    (h2 : survived false t2 = true) : survived b (t1 ++ t2) = true := by
  induction t1 generalizing b with
  | nil => exact survived_mono b t2 h2
  | cons e rest ih =>
    simp only [List.cons_append, survived, Bool.and_eq_true] at h1 ⊢
    exact ⟨h1.1, ih _ h1.2⟩

/-- The outcome of a step with new trace entries `t`: no failed call that the
program does not go on after, or only the last entry is one and the step aborted. -/
theorem outcome_append {aborted : Prop} (t1 t2 : List Event) (h1 : survived false t1 = true)
    (h2 : survived false t2 = true ∨
      ∃ t e, t2 = t ++ [e] ∧ survived false t = true ∧ aborted) :
    survived false (t1 ++ t2) = true ∨
      ∃ t e, t1 ++ t2 = t ++ [e] ∧ survived false t = true ∧ aborted := by
  rcases h2 with h2 | ⟨t, e, rfl, ht, ha⟩
  · exact Or.inl (survived_append false t1 t2 h1 h2)
  · exact Or.inr ⟨t1 ++ t, e, by simp, survived_append false t1 t h1 ht, ha⟩

theorem resolveVpc_outcome {σ : Type} (P : Provider σ) (vpcID : String) (w : World σ) :
    ∃ t, (resolveVpc P vpcID w).2.trace = w.trace ++ t ∧
      (survived false t = true ∨
        ∃ t0 e, t = t0 ++ [e] ∧ survived false t0 = true ∧
          ∃ a, (resolveVpc P vpcID w).1 = .error a) := by
  unfold resolveVpc
  split
  · simp only [invoke]
    cases h : (P.DescribeVpcs w.cloud).1 with
    | error err =>
      exact ⟨_, rfl, Or.inr ⟨[], _, rfl, rfl, _, rfl⟩⟩
    | ok vpcs =>
      cases vpcs with
      | nil => exact ⟨_, rfl, Or.inl rfl⟩
      | cons v vs => exact ⟨_, rfl, Or.inl rfl⟩
  · exact ⟨[], by simp, Or.inl rfl⟩

theorem createEC2_outcome {σ : Type} (P : Provider σ)
    (amiID instanceType instanceTagKey instanceTagValue userdata : String)
    (securityGroupIDs : List String) (w : World σ) :
    ∃ t, (createEC2 P amiID instanceType instanceTagKey instanceTagValue userdata
        securityGroupIDs w).2.trace = w.trace ++ t ∧
      (survived false t = true ∨
        ∃ t0 e, t = t0 ++ [e] ∧ survived false t0 = true ∧
          ∃ a, (createEC2 P amiID instanceType instanceTagKey instanceTagValue userdata
            securityGroupIDs w).1 = .error a) := by
  unfold createEC2
  cases hreq : createEC2Request amiID instanceType instanceTagKey instanceTagValue userdata
      securityGroupIDs with
  | error a => exact ⟨[], by simp, Or.inl rfl⟩
  | ok request =>
    simp only [invoke]
    cases h : (P.RunInstances request w.cloud).1 with
    | error err => exact ⟨_, rfl, Or.inr ⟨[], _, rfl, rfl, _, rfl⟩⟩
    | ok l =>
      cases l with
      | nil => exact ⟨_, rfl, Or.inl rfl⟩
      | cons i rest => exact ⟨_, rfl, Or.inl rfl⟩

theorem getEC2_outcome {σ : Type} (P : Provider σ) (tagKey tagValue : String) (w : World σ) :
    ∃ t, (getEC2 P tagKey tagValue w).2.trace = w.trace ++ t ∧
      (survived false t = true ∨
        ∃ t0 e, t = t0 ++ [e] ∧ survived false t0 = true ∧
          ∃ a, (getEC2 P tagKey tagValue w).1 = .error a) := by
  simp only [getEC2, invoke]
  cases h : (P.DescribeInstances (describeParams tagKey tagValue) w.cloud).1 with
  | error err => exact ⟨_, rfl, Or.inr ⟨[], _, rfl, rfl, _, rfl⟩⟩
  | ok l => exact ⟨_, rfl, Or.inl rfl⟩

theorem trace_two (a t : List Event) (e1 e2 : Event) :
    a ++ t ++ [e1] ++ [e2] = a ++ (t ++ [e1, e2]) := by
  simp

theorem trace_three (a t : List Event) (e1 e2 e3 : Event) :
    a ++ t ++ [e1] ++ [e2] ++ [e3] = a ++ (t ++ [e1, e2, e3]) := by
  simp

theorem last_of_two (t : List Event) (e1 e2 : Event) : t ++ [e1, e2] = t ++ [e1] ++ [e2] := by
  simp

theorem last_of_three (t : List Event) (e1 e2 e3 : Event) :
    t ++ [e1, e2, e3] = t ++ [e1, e2] ++ [e3] := by
  simp

theorem createSecurityGroup_outcome {σ : Type} (P : Provider σ) (Quote : String → String)
    (name desc vpcID : String) (port : Int) (cidr : String) (w : World σ) :
    ∃ t, (createSecurityGroup P Quote name desc vpcID port cidr w).2.trace = w.trace ++ t ∧
      (survived false t = true ∨
        ∃ t0 e, t = t0 ++ [e] ∧ survived false t0 = true ∧
          ∃ a, (createSecurityGroup P Quote name desc vpcID port cidr w).1 = .error a) := by
  unfold createSecurityGroup
  split
  · exact ⟨[], by simp, Or.inl rfl⟩
  · obtain ⟨t0, ht0, hout0⟩ := resolveVpc_outcome P vpcID w
    rcases hrv : resolveVpc P vpcID w with ⟨r, wv⟩
    rw [hrv] at ht0 hout0
    simp only at ht0 hout0
    cases r with
    | error a => exact ⟨t0, ht0, by simpa using hout0⟩
    | ok v =>
      have hs0 : survived false t0 = true := by
        rcases hout0 with h | ⟨_, _, _, _, a, ha⟩
        · exact h
        · cases ha
      simp only [invoke, ht0]
      cases hcr : (P.CreateSecurityGroup
          { GroupName := name, Description := desc, VpcId := v } wv.cloud).1 with
      | error err =>
        simp only [errorOf]
        by_cases hnf : err.Code = some "InvalidVpcID.NotFound"
        · simp only [hnf, if_true]
          exact ⟨_, List.append_assoc _ _ _, Or.inr ⟨t0, _, rfl, hs0, _, rfl⟩⟩
        · by_cases hdup : err.Code = some "InvalidGroup.Duplicate"
          · simp only [hnf, hdup, if_true, if_false, getGroups, invoke]
            cases hd : (P.DescribeSecurityGroups
                { Filters := [{ Name := "group-name", Values := List.map (fun name => name) ([] ++ [name]) }] }
                (P.CreateSecurityGroup
                  { GroupName := name, Description := desc, VpcId := v } wv.cloud).2).1 with
            | error e2 =>
              refine ⟨_, trace_two _ _ _ _, Or.inl ?_⟩
              apply survived_append false t0 _ hs0
              simp [survived, Event.failed, Event.isDuplicateCreate, Event.isFailedLookup, hdup,
                errorOf]
            | ok gs =>
              refine ⟨_, trace_two _ _ _ _, Or.inl ?_⟩
              apply survived_append false t0 _ hs0
              simp [survived, Event.failed, Event.isDuplicateCreate, Event.isFailedLookup, hdup,
                errorOf]
          · simp only [hnf, hdup, if_false]
            exact ⟨_, List.append_assoc _ _ _, Or.inr ⟨t0, _, rfl, hs0, _, rfl⟩⟩
      | ok gid =>
        simp only [errorOf]
        cases hau : (P.AuthorizeSecurityGroupIngress (ingressInput name port cidr)
            (P.CreateSecurityGroup
              { GroupName := name, Description := desc, VpcId := v } wv.cloud).2).1 with
        | error e2 =>
          refine ⟨_, trace_two _ _ _ _, Or.inr ⟨_, _, last_of_two _ _ _, ?_, _, rfl⟩⟩
          exact survived_append false t0 _ hs0 rfl
        | ok u =>
          simp only [getGroups, invoke]
          cases hd : (P.DescribeSecurityGroups
              { Filters := [{ Name := "group-name", Values := List.map (fun name => name) ([] ++ [name]) }] }
              (P.AuthorizeSecurityGroupIngress (ingressInput name port cidr)
                (P.CreateSecurityGroup
                  { GroupName := name, Description := desc, VpcId := v } wv.cloud).2).2).1 with
          | error e3 =>
            refine ⟨_, trace_three _ _ _ _ _,
              Or.inr ⟨_, _, last_of_three _ _ _ _, ?_, _, rfl⟩⟩
            exact survived_append false t0 _ hs0 rfl
          | ok gs =>
            refine ⟨_, trace_three _ _ _ _ _, Or.inl ?_⟩
            exact survived_append false t0 _ hs0 rfl

theorem report_world {σ : Type} (inst : Option Instance) (err : Option String) (w : World σ) :
    (report inst err w).2 = w := by
  unfold report
  cases err <;> cases inst <;> rfl

theorem pollLoop_outcome {σ : Type} (P : Provider σ) (tagKey tagValue id : String) :
    ∀ (fuel : Nat) (inst : Option Instance) (err : Option String) (w : World σ),
      ∃ t, (pollLoop P tagKey tagValue id fuel inst err w).2.trace = w.trace ++ t ∧
        (survived false t = true ∨
          ∃ t0 e, t = t0 ++ [e] ∧ survived false t0 = true ∧
            ∃ a, (pollLoop P tagKey tagValue id fuel inst err w).1 = some (.error a)) := by
  intro fuel
  induction fuel with
  | zero =>
    intro inst err w
    cases inst with
    | none => exact ⟨[], by simp [pollLoop], Or.inl rfl⟩
    | some i =>
      by_cases hdns : i.PublicDnsName = ""
      · exact ⟨[], by simp [pollLoop, hdns], Or.inl rfl⟩
      · exact ⟨[], by simp [pollLoop, hdns, report_world], Or.inl rfl⟩
  | succ fuel ih =>
    intro inst err w
    cases inst with
    | none => exact ⟨[], by simp [pollLoop], Or.inl rfl⟩
    | some i =>
      by_cases hdns : i.PublicDnsName = ""
      · obtain ⟨t1, ht1, hout1⟩ := getEC2_outcome P tagKey tagValue (sleep 500 w)
        simp only [pollLoop, hdns, if_true]
        rcases hget : getEC2 P tagKey tagValue (sleep 500 w) with ⟨r, w1⟩
        rw [hget] at ht1 hout1
        simp only [sleep] at ht1 hout1
        cases r with
        | error a =>
          refine ⟨[Event.sleep 500] ++ t1, by simp [ht1], ?_⟩
          exact outcome_append [Event.sleep 500] t1 rfl (by simpa using hout1)
        | ok ec2s =>
          have hs1 : survived false t1 = true := by
            rcases hout1 with h | ⟨_, _, _, _, a, ha⟩
            · exact h
            · cases ha
          obtain ⟨t2, ht2, hout2⟩ := ih (getEC2Instance ec2s id).1 (getEC2Instance ec2s id).2 w1
          refine ⟨([Event.sleep 500] ++ t1) ++ t2, by simp [ht2, ht1], ?_⟩
          exact outcome_append ([Event.sleep 500] ++ t1) t2
            (survived_append false _ _ rfl hs1) hout2
      · exact ⟨[], by simp [pollLoop, hdns, report_world], Or.inl rfl⟩

theorem awaitPublicDns_outcome {σ : Type} (P : Provider σ) (fuel : Nat)
    (tagKey tagValue id : String) (w : World σ) :
    ∃ t, (awaitPublicDns P fuel tagKey tagValue id w).2.trace = w.trace ++ t ∧
      (survived false t = true ∨
        ∃ t0 e, t = t0 ++ [e] ∧ survived false t0 = true ∧
          ∃ a, (awaitPublicDns P fuel tagKey tagValue id w).1 = some (.error a)) := by
  obtain ⟨t1, ht1, hout1⟩ := getEC2_outcome P tagKey tagValue w
  unfold awaitPublicDns
  rcases hget : getEC2 P tagKey tagValue w with ⟨r, w1⟩
  rw [hget] at ht1 hout1
  simp only at ht1 hout1
  cases r with
  | error a => exact ⟨t1, ht1, by simpa using hout1⟩
  | ok ec2s =>
    have hs1 : survived false t1 = true := by
      rcases hout1 with h | ⟨_, _, _, _, a, ha⟩
      · exact h
      · cases ha
    obtain ⟨t2, ht2, hout2⟩ := pollLoop_outcome P tagKey tagValue id fuel
      (getEC2Instance ec2s id).1 (getEC2Instance ec2s id).2 w1
    exact ⟨t1 ++ t2, by simp [ht2, ht1], outcome_append t1 t2 hs1 hout2⟩

/-- The part of C4 that holds, for every provider and every input: among the
calls `run` makes, a failed call is the duplicate create, or the name lookup
right after it, or it is the last entry of the trace and the run has aborted;
after any other failed call there is no request and no sleep. -/
theorem run_stops_at_failed_call {σ : Type} (P : Provider σ) (Quote : String → String)
    (fuel : Nat) (aws : awsInput) (w : World σ) :
    ∃ t, (run P Quote fuel aws w).2.trace = w.trace ++ t ∧
      (survived false t = true ∨
        ∃ t0 e, t = t0 ++ [e] ∧ survived false t0 = true ∧
          ∃ a, (run P Quote fuel aws w).1 = some (.error a)) := by
  obtain ⟨t1, ht1, hout1⟩ := createSecurityGroup_outcome P Quote aws.securityGroupName
    aws.securityGroupDesc aws.vpcID aws.port aws.cidr w
  unfold run
  split
  · rename_i a w1 hsg
    rw [hsg] at ht1 hout1
    exact ⟨t1, ht1, by simpa using hout1⟩
  · rename_i groups w1 hsg
    rw [hsg] at ht1 hout1
    simp only at ht1 hout1
    have hs1 : survived false t1 = true := by
      rcases hout1 with h | ⟨_, _, _, _, a, ha⟩
      · exact h
      · cases ha
    obtain ⟨t2, ht2, hout2⟩ := createEC2_outcome P aws.amiID aws.instanceType aws.instanceTagKey
      aws.instanceTagValue (getUserData aws.container aws.port)
      (groups.foldl (fun ids group => ids ++ [group.GroupId]) []) w1
    simp only
    split
    · rename_i a w2 hec
      rw [hec] at ht2 hout2
      simp only at ht2 hout2
      exact ⟨t1 ++ t2, by simp [ht2, ht1], outcome_append t1 t2 hs1 (by simpa using hout2)⟩
    · rename_i instances w2 hec
      rw [hec] at ht2 hout2
      simp only at ht2 hout2
      have hs2 : survived false t2 = true := by
        rcases hout2 with h | ⟨_, _, _, _, a, ha⟩
        · exact h
        · cases ha
      split
      · exact ⟨t1 ++ t2, by simp [ht2, ht1], Or.inl (survived_append false t1 t2 hs1 hs2)⟩
      · rename_i first rest
        obtain ⟨t3, ht3, hout3⟩ := awaitPublicDns_outcome P fuel aws.instanceTagKey
          aws.instanceTagValue first.InstanceId w2
        exact ⟨(t1 ++ t2) ++ t3, by simp [ht3, ht2, ht1],
          outcome_append (t1 ++ t2) t3 (survived_append false t1 t2 hs1 hs2) hout3⟩

end Gaws
